import Mathlib

/-!
Verification of the technology-stack evaluation engine.

Shallow embedding of the Python components (StackComparator, TCOCalculator,
MigrationAnalyzer, EcosystemAnalyzer, SecurityAssessor, ReportGenerator,
FormatDetector) into Lean.  Python floats are modelled as exact rationals,
Python dicts as insertion-ordered association lists, and Python runtime
exceptions (ZeroDivisionError, AttributeError, TypeError) as `Except.error`.
-/

/-- Association-list lookup: `d.get(k)` on an insertion-ordered dict. -/
def alget {α : Type} (d : List (String × α)) (k : String) : Option α :=
  (d.find? (fun kv => kv.1 == k)).map (fun kv => kv.2)

/-- Dict item assignment `d[k] = v`: replaces the value in place if the key is
present (keeping its position), otherwise appends the new binding. -/
def alset {α : Type} (d : List (String × α)) (k : String) (v : α) :
    List (String × α) :=
  if (d.find? (fun kv => kv.1 == k)).isSome then
    d.map (fun kv => if kv.1 == k then (kv.1, v) else kv)
  else
    d ++ [(k, v)]

/-- `base.update(custom)`: item assignment for each custom binding in order. -/
def dictUpdate {α : Type} (base custom : List (String × α)) :
    List (String × α) :=
  custom.foldl (fun acc kv => alset acc kv.1 kv.2) base

/-- Sum of the values of an association list. -/
def sumValues (d : List (String × ℚ)) : ℚ :=
  (d.map (fun kv => kv.2)).sum

/-- Python `s.lower()` (ASCII model). -/
def pyLower (s : String) : String :=
  s.map Char.toLower

/-- Python substring test `pat in s`. -/
def strContainsSub (s pat : String) : Bool :=
  decide (pat.data <:+: s.data)

namespace StackComparator

/-- The eight fixed feature categories, in source order. -/
def FEATURE_CATEGORIES : List String :=
  ["performance", "scalability", "developer_experience", "ecosystem",
   "learning_curve", "documentation", "community_support",
   "enterprise_readiness"]

/-- Default category weights. -/
def DEFAULT_WEIGHTS : List (String × ℚ) :=
  [("performance", 15), ("scalability", 15), ("developer_experience", 20),
   ("ecosystem", 15), ("learning_curve", 10), ( "documentation", 10),
   ("community_support", 10), ("enterprise_readiness", 5)]

/-- `StackComparator._normalize_weights`: defaults updated with the custom
weights, then scaled so the values sum to 100; a zero total reverts to the
defaults. -/
def normalize_weights (custom_weights : List (String × ℚ)) :
    List (String × ℚ) :=
  let weights := dictUpdate DEFAULT_WEIGHTS custom_weights
  let total := sumValues weights
  if total = 0 then DEFAULT_WEIGHTS
  else weights.map (fun kv => (kv.1, kv.2 / total * 100))

/-- Use-case adjustment table (`_adjust_for_use_case`), in source order. -/
def adjustments : List (String × List (String × ℚ)) :=
  [("real-time", [("performance", 1.1), ("scalability", 1.1)]),
   ("enterprise", [("enterprise_readiness", 1.2), ( "documentation", 1.1)]),
   ("startup", [("developer_experience", 1.15), ("learning_curve", 1.1)])]

/-- `StackComparator._adjust_for_use_case`: the first adjustment key contained
in the lowercased use case selects a multiplier table for some categories. -/
def adjust_for_use_case (use_case category : String) (score : ℚ) : ℚ :=
  let uc := pyLower use_case
  match adjustments.find? (fun kv => strContainsSub uc kv.1) with
  | none => score
  | some kv =>
    match alget kv.2 category with
    | some multiplier => score * multiplier
    | none => score

/-- A technology input record: its name plus the caller-supplied per-category
raw scores (`tech_data[category]["score"]`; an absent entry defaults to 50). -/
structure TechInput where
  name : String
  data : List (String × ℚ)

/-- `StackComparator.score_technology`: raw score (default 50), use-case
adjusted, clamped to [0, 100], for each fixed category in order. -/
def score_technology (use_case : String) (tech : TechInput) :
    List (String × ℚ) :=
  FEATURE_CATEGORIES.map (fun category =>
    let raw_score := (alget tech.data category).getD 50
    let adjusted := adjust_for_use_case use_case category raw_score
    (category, min 100 (max 0 adjusted)))

/-- `StackComparator.calculate_weighted_score`. -/
def calculate_weighted_score (weights : List (String × ℚ))
    (category_scores : List (String × ℚ)) : ℚ :=
  (category_scores.map
    (fun kv => kv.2 * ((alget weights kv.1).getD 0 / 100))).sum

/-- `StackComparator._identify_strengths` (threshold 75). -/
def identify_strengths (category_scores : List (String × ℚ)) : List String :=
  (category_scores.filter (fun kv => 75 ≤ kv.2)).map (fun kv => kv.1)

/-- `StackComparator._identify_weaknesses` (threshold 50). -/
def identify_weaknesses (category_scores : List (String × ℚ)) : List String :=
  (category_scores.filter (fun kv => kv.2 < 50)).map (fun kv => kv.1)

/-- Per-technology scorecard stored in `tech_scores`. -/
structure Scorecard where
  category_scores : List (String × ℚ)
  weighted_total : ℚ
  strengths : List String
  weaknesses : List String

/-- The scorecard computed for one technology. -/
def mkScorecard (use_case : String) (weights : List (String × ℚ))
    (tech : TechInput) : Scorecard :=
  let cs := score_technology use_case tech
  { category_scores := cs
    weighted_total := calculate_weighted_score weights cs
    strengths := identify_strengths cs
    weaknesses := identify_weaknesses cs }

/-- The `tech_scores` dict of `compare_technologies`: one item assignment per
technology, in input order. -/
def buildTechScores (use_case : String) (weights : List (String × ℚ))
    (techs : List TechInput) : List (String × Scorecard) :=
  techs.foldl
    (fun acc tech => alset acc tech.name (mkScorecard use_case weights tech))
    []

/-- Descending order on weighted totals; `sorted(..., reverse=True)` with a
stable sort is `List.insertionSort` for this relation. -/
def byTotalDesc (a b : String × Scorecard) : Prop :=
  b.2.weighted_total ≤ a.2.weighted_total

instance : DecidableRel byTotalDesc := fun a b =>
  inferInstanceAs (Decidable (b.2.weighted_total ≤ a.2.weighted_total))

instance : IsTotal (String × Scorecard) byTotalDesc :=
  ⟨fun x y => le_total y.2.weighted_total x.2.weighted_total⟩

instance : IsTrans (String × Scorecard) byTotalDesc :=
  ⟨fun _ _ _ h1 h2 => le_trans h2 h1⟩

/-- The confidence computation of `_generate_recommendation`, as a function of
the score gap to the runner-up. -/
def confidence_from_gap (score_gap : ℚ) : ℚ :=
  if score_gap < 5 then 40 + score_gap * 2
  else if score_gap < 15 then 50 + (score_gap - 5) * 2
  else 70 + min (score_gap - 15) 30

/-- `StackComparator._generate_recommendation`: stable-sort the scorecards by
weighted total (descending), recommend the head; confidence from the gap to
the runner-up, or 100 for a single candidate, capped at 100. -/
def generate_recommendation (tech_scores : List (String × Scorecard)) :
    String × ℚ :=
  match List.insertionSort byTotalDesc tech_scores with
  | [] => ("Insufficient data", 0)
  | top :: rest =>
    let confidence : ℚ :=
      match rest with
      | [] => 100
      | second :: _ =>
        confidence_from_gap (top.2.weighted_total - second.2.weighted_total)
    (top.1, min 100 confidence)

/-- The fields of the `compare_technologies` result that the claims are about
(the presentational decision-factor and matrix strings are not modelled). -/
structure ComparisonResult where
  technologies : List (String × Scorecard)
  recommendation : String
  confidence : ℚ

/-- `StackComparator.compare_technologies` (scoring and recommendation). -/
def compare_technologies (use_case : String) (weights : List (String × ℚ))
    (techs : List TechInput) : ComparisonResult :=
  let tech_scores := buildTechScores use_case weights techs
  let rc := generate_recommendation tech_scores
  { technologies := tech_scores, recommendation := rc.1, confidence := rc.2 }

/-- The weighted total a technology receives in `compare_technologies`. -/
def wtotal (use_case : String) (weights : List (String × ℚ))
    (tech : TechInput) : ℚ :=
  calculate_weighted_score weights (score_technology use_case tech)

/-- The first element of a scorecard list attaining the maximal weighted
total — the element a stable descending sort places at the head.  Used to
state and prove the input-order tie-breaking of the recommendation. -/
def firstMaxCard : List (String × Scorecard) → Option (String × Scorecard)
  | [] => none
  | x :: xs =>
    match firstMaxCard xs with
    | none => some x
    | some m =>
      if m.2.weighted_total ≤ x.2.weighted_total then some x else some m

end StackComparator

/-- Python division, which raises `ZeroDivisionError` on a zero divisor. -/
def pydiv (a b : ℚ) : Except String ℚ :=
  if b = 0 then Except.error "ZeroDivisionError" else Except.ok (a / b)

/-- Python `int(x)` on a float: truncation toward zero. -/
def pyTrunc (q : ℚ) : ℤ :=
  if 0 ≤ q then ⌊q⌋ else ⌈q⌉

namespace TCOCalculator

/-- The cost parameters read by `TCOCalculator.__init__`; `none` models an
absent dict entry, whose documented default is applied at each read site. -/
structure TCOParams where
  team_size : Option ℚ := none
  timeline_years : Option ℕ := none
  licensing : Option ℚ := none
  training_hours_per_dev : Option ℚ := none
  developer_hourly_rate : Option ℚ := none
  training_materials : Option ℚ := none
  migration : Option ℚ := none
  setup : Option ℚ := none
  tooling : Option ℚ := none
  annual_licensing : Option ℚ := none
  monthly_hosting : Option ℚ := none
  annual_support : Option ℚ := none
  maintenance_hours_per_dev_monthly : Option ℚ := none
  annual_growth_rate : Option ℚ := none
  initial_users : Option ℚ := none
  initial_servers : Option ℚ := none
  cost_per_server_monthly : Option ℚ := none
  productivity_multiplier : Option ℚ := none
  time_to_market_reduction_days : Option ℚ := none
  avg_feature_time_days : Option ℚ := none
  avg_feature_value : Option ℚ := none
  technical_debt_percentage : Option ℚ := none
  vendor_lock_in_risk : Option String := none
  security_incidents_per_year : Option ℚ := none
  avg_security_incident_cost : Option ℚ := none
  downtime_hours_per_year : Option ℚ := none
  downtime_cost_per_hour : Option ℚ := none
  annual_turnover_rate : Option ℚ := none
  cost_per_new_hire : Option ℚ := none

/-- `self.team_size` (default 5). -/
def teamSize (p : TCOParams) : ℚ := p.team_size.getD 5

/-- `self.timeline_years` (default 5). -/
def timelineYears (p : TCOParams) : ℕ := p.timeline_years.getD 5

/-- `TCOCalculator._calculate_training_costs`. -/
def calculate_training_costs (p : TCOParams) : ℚ :=
  let hours_per_developer := p.training_hours_per_dev.getD 40
  let avg_hourly_rate := p.developer_hourly_rate.getD 100
  let training_materials := p.training_materials.getD 500
  let total_hours := teamSize p * hours_per_developer
  total_hours * avg_hourly_rate + training_materials

/-- The one-time cost components of `calculate_initial_costs`. -/
structure InitialCosts where
  licensing : ℚ
  training : ℚ
  migration : ℚ
  setup : ℚ
  tooling : ℚ
  total_initial : ℚ

/-- `TCOCalculator.calculate_initial_costs`. -/
def calculate_initial_costs (p : TCOParams) : InitialCosts :=
  let licensing := p.licensing.getD 0
  let training := calculate_training_costs p
  let migration := p.migration.getD 0
  let setup := p.setup.getD 0
  let tooling := p.tooling.getD 0
  { licensing := licensing, training := training, migration := migration,
    setup := setup, tooling := tooling,
    total_initial := licensing + training + migration + setup + tooling }

/-- `TCOCalculator._calculate_hosting_cost` for a 1-indexed year. -/
def calculate_hosting_cost (p : TCOParams) (year : ℕ) : ℚ :=
  let base_cost := p.monthly_hosting.getD 1000 * 12
  let growth_rate := p.annual_growth_rate.getD 0.20
  base_cost * (1 + growth_rate) ^ (year - 1)

/-- `TCOCalculator._calculate_maintenance_cost` (the same for every year). -/
def calculate_maintenance_cost (p : TCOParams) : ℚ :=
  let hours_per_dev_per_month := p.maintenance_hours_per_dev_monthly.getD 20
  let avg_hourly_rate := p.developer_hourly_rate.getD 100
  let monthly_cost := teamSize p * hours_per_dev_per_month * avg_hourly_rate
  monthly_cost * 12

/-- The five year-indexed series built by `calculate_operational_costs`. -/
structure OperationalCosts where
  licensing : List ℚ
  hosting : List ℚ
  support : List ℚ
  maintenance : List ℚ
  total_yearly : List ℚ

/-- `TCOCalculator.calculate_operational_costs`: one entry per year in
`range(1, timeline_years + 1)` for each series. -/
def calculate_operational_costs (p : TCOParams) : OperationalCosts :=
  let n := timelineYears p
  let license_cost := p.annual_licensing.getD 0
  let support_cost := p.annual_support.getD 0
  let maintenance_cost := calculate_maintenance_cost p
  { licensing := (List.range n).map (fun _ => license_cost)
    hosting := (List.range n).map (fun k => calculate_hosting_cost p (k + 1))
    support := (List.range n).map (fun _ => support_cost)
    maintenance := (List.range n).map (fun _ => maintenance_cost)
    total_yearly := (List.range n).map (fun k =>
      license_cost + calculate_hosting_cost p (k + 1) + support_cost +
        maintenance_cost) }

/-- `TCOCalculator._calculate_scaling_efficiency`. -/
def calculate_scaling_efficiency (cost_per_user : List ℚ) : String :=
  match cost_per_user with
  | [] => "Insufficient data"
  | [_] => "Insufficient data"
  | initial :: c :: rest =>
    let final := (c :: rest).getLast (List.cons_ne_nil c rest)
    if final < initial * 0.8 then "Excellent - economies of scale achieved"
    else if final < initial then "Good - improving efficiency over time"
    else if final < initial * 1.2 then "Moderate - costs growing with users"
    else "Poor - costs growing faster than users"

/-- The result of `calculate_scaling_costs`. -/
structure ScalingResult where
  user_projections : List ℤ
  cost_per_user : List ℚ
  yearly_infrastructure_costs : List ℚ
  scaling_efficiency : String

/-- `TCOCalculator._calculate_infrastructure_scaling`. -/
def calculate_infrastructure_scaling (p : TCOParams) : List ℚ :=
  let base_servers := p.initial_servers.getD 5
  let cost_per_server_monthly := p.cost_per_server_monthly.getD 200
  let growth_rate := p.annual_growth_rate.getD 0.20
  (List.range (timelineYears p)).map (fun k =>
    base_servers * (1 + growth_rate) ^ (k + 1) * cost_per_server_monthly * 12)

/-- `TCOCalculator.calculate_scaling_costs`: the cost-per-user ratio carries
an explicit `users > 0` guard that substitutes 0. -/
def calculate_scaling_costs (p : TCOParams) : ScalingResult :=
  let initial_users := p.initial_users.getD 1000
  let annual_growth_rate := p.annual_growth_rate.getD 0.20
  let user_projections := (List.range (timelineYears p)).map (fun k =>
    pyTrunc (initial_users * (1 + annual_growth_rate) ^ (k + 1)))
  let operational := calculate_operational_costs p
  let cost_per_user := (operational.total_yearly.zip user_projections).map
    (fun yu => if 0 < yu.2 then yu.1 / (yu.2 : ℚ) else 0)
  { user_projections := user_projections
    cost_per_user := cost_per_user
    yearly_infrastructure_costs := calculate_infrastructure_scaling p
    scaling_efficiency := calculate_scaling_efficiency cost_per_user }

/-- The result of `calculate_productivity_impact`. -/
structure ProductivityResult where
  productivity_multiplier : ℚ
  time_to_market_reduction_days : ℚ
  additional_features_per_year : ℚ
  yearly_productivity_value : ℚ
  five_year_productivity_value : ℚ

/-- `TCOCalculator.calculate_productivity_impact`: the division
`365 / avg_feature_time_days` carries no zero-check; the second division is
guarded by `max(1, ...)`. -/
def calculate_productivity_impact (p : TCOParams) :
    Except String ProductivityResult := do
  let productivity_multiplier := p.productivity_multiplier.getD 1
  let ttm_reduction := p.time_to_market_reduction_days.getD 0
  let avg_feature_time_days := p.avg_feature_time_days.getD 30
  let features_per_year ← pydiv 365 avg_feature_time_days
  let faster_features_per_year ←
    pydiv 365 (max 1 (avg_feature_time_days - ttm_reduction))
  let additional_features := faster_features_per_year - features_per_year
  let feature_value := p.avg_feature_value.getD 10000
  let yearly_productivity_value := additional_features * feature_value
  Except.ok
    { productivity_multiplier := productivity_multiplier
      time_to_market_reduction_days := ttm_reduction
      additional_features_per_year := additional_features
      yearly_productivity_value := yearly_productivity_value
      five_year_productivity_value :=
        yearly_productivity_value * (timelineYears p : ℚ) }

/-- The hidden-cost components of `calculate_hidden_costs`. -/
structure HiddenCosts where
  technical_debt : ℚ
  vendor_lock_in_risk : ℚ
  security_incidents : ℚ
  downtime_risk : ℚ
  developer_turnover : ℚ
  total_hidden_costs : ℚ

/-- `TCOCalculator._estimate_technical_debt`. -/
def estimate_technical_debt (p : TCOParams) : ℚ :=
  let debt_percentage := p.technical_debt_percentage.getD 0.15
  let yearly_dev_cost := calculate_maintenance_cost p
  ((List.range (timelineYears p)).map (fun k =>
    yearly_dev_cost * debt_percentage * (k + 1 : ℚ))).sum

/-- `TCOCalculator._estimate_vendor_lock_in_cost`. -/
def estimate_vendor_lock_in_cost (p : TCOParams) : ℚ :=
  let lock_in_risk := p.vendor_lock_in_risk.getD "low"
  let migration_cost := p.migration.getD 10000
  let multiplier :=
    (alget [("low", (0.1 : ℚ)), ("medium", 0.3), ("high", 0.6)]
      lock_in_risk).getD 0.2
  migration_cost * multiplier

/-- `TCOCalculator._estimate_security_costs`. -/
def estimate_security_costs (p : TCOParams) : ℚ :=
  p.security_incidents_per_year.getD 0.5 *
    p.avg_security_incident_cost.getD 50000 * (timelineYears p : ℚ)

/-- `TCOCalculator._estimate_downtime_costs`. -/
def estimate_downtime_costs (p : TCOParams) : ℚ :=
  p.downtime_hours_per_year.getD 2 * p.downtime_cost_per_hour.getD 5000 *
    (timelineYears p : ℚ)

/-- `TCOCalculator._estimate_turnover_costs`. -/
def estimate_turnover_costs (p : TCOParams) : ℚ :=
  let hires_per_year := teamSize p * p.annual_turnover_rate.getD 0.15
  hires_per_year * p.cost_per_new_hire.getD 30000 * (timelineYears p : ℚ)

/-- `TCOCalculator.calculate_hidden_costs`. -/
def calculate_hidden_costs (p : TCOParams) : HiddenCosts :=
  let td := estimate_technical_debt p
  let vl := estimate_vendor_lock_in_cost p
  let si := estimate_security_costs p
  let dr := estimate_downtime_costs p
  let dt := estimate_turnover_costs p
  { technical_debt := td, vendor_lock_in_risk := vl, security_incidents := si,
    downtime_risk := dr, developer_turnover := dt,
    total_hidden_costs := td + vl + si + dr + dt }

/-- The result fields of `calculate_total_tco`. -/
structure TCOResult where
  initial_costs : InitialCosts
  operational_costs : OperationalCosts
  scaling_analysis : ScalingResult
  productivity_impact : ProductivityResult
  hidden_costs : HiddenCosts
  total_tco : ℚ
  net_tco_after_productivity : ℚ
  average_yearly_cost : ℚ

/-- `TCOCalculator.calculate_total_tco`: the final
`total_cost / self.timeline_years` carries no zero-check. -/
def calculate_total_tco (p : TCOParams) : Except String TCOResult := do
  let initial := calculate_initial_costs p
  let operational := calculate_operational_costs p
  let scaling := calculate_scaling_costs p
  let productivity ← calculate_productivity_impact p
  let hidden := calculate_hidden_costs p
  let total_operational := operational.total_yearly.sum
  let total_cost :=
    initial.total_initial + total_operational + hidden.total_hidden_costs
  let net_cost := total_cost - productivity.five_year_productivity_value
  let average_yearly ← pydiv total_cost (timelineYears p : ℚ)
  Except.ok
    { initial_costs := initial, operational_costs := operational,
      scaling_analysis := scaling, productivity_impact := productivity,
      hidden_costs := hidden, total_tco := total_cost,
      net_tco_after_productivity := net_cost,
      average_yearly_cost := average_yearly }

end TCOCalculator

namespace MigrationAnalyzer

/-- The migration parameters read by `MigrationAnalyzer.__init__` (codebase
stats, constraints and team info); `none` models an absent dict entry. -/
structure MigrationParams where
  lines_of_code : Option ℚ := none
  num_files : Option ℚ := none
  num_components : Option ℚ := none
  architecture_change_level : Option String := none
  has_database : Option Bool := none
  database_size_gb : Option ℚ := none
  schema_changes_required : Option String := none
  data_transformation_required : Option Bool := none
  breaking_api_changes : Option String := none
  num_dependencies : Option ℚ := none
  dependencies_to_replace : Option ℚ := none
  current_test_coverage : Option ℚ := none
  num_tests : Option ℚ := none
  downtime_tolerance : Option String := none
  team_size : Option ℚ := none
  hours_per_week : Option ℚ := none
  target_tech_experience : Option String := none

/-- `MigrationAnalyzer._score_code_volume`. -/
def score_code_volume (m : MigrationParams) : ℚ :=
  let lines_of_code := m.lines_of_code.getD 10000
  let num_components := m.num_components.getD 50
  let base_score : ℚ :=
    if lines_of_code < 5000 then 2
    else if lines_of_code < 20000 then 4
    else if lines_of_code < 50000 then 6
    else if lines_of_code < 100000 then 8
    else 10
  if num_components > 200 then min 10 (base_score + 1)
  else if num_components > 500 then min 10 (base_score + 2)
  else base_score

/-- `MigrationAnalyzer._score_architecture_changes`. -/
def score_architecture_changes (m : MigrationParams) : ℚ :=
  let arch_change_level := m.architecture_change_level.getD "moderate"
  (alget [("minimal", (2 : ℚ)), ("moderate", 5), ("significant", 7),
    ("complete", 10)] arch_change_level).getD 5

/-- `MigrationAnalyzer._score_data_migration`. -/
def score_data_migration (m : MigrationParams) : ℚ :=
  if ¬ m.has_database.getD true then 1
  else
    let database_size_gb := m.database_size_gb.getD 10
    let schema_changes := m.schema_changes_required.getD "minimal"
    let data_transformation := m.data_transformation_required.getD false
    let score : ℚ :=
      if database_size_gb < 1 then 2
      else if database_size_gb < 10 then 3
      else if database_size_gb < 100 then 5
      else if database_size_gb < 1000 then 7
      else 9
    let score := score +
      (alget [("none", (0 : ℚ)), ("minimal", 1), ("moderate", 2),
        ("significant", 3)] schema_changes).getD 1
    let score := if data_transformation then score + 2 else score
    min 10 score

/-- `MigrationAnalyzer._score_api_compatibility`. -/
def score_api_compatibility (m : MigrationParams) : ℚ :=
  let breaking_api_changes := m.breaking_api_changes.getD "some"
  (alget [("none", (1 : ℚ)), ("minimal", 3), ("some", 5), ("many", 7),
    ("complete", 10)] breaking_api_changes).getD 5

/-- `MigrationAnalyzer._score_dependency_changes`: the replacement-percentage
ratio carries an explicit `num_dependencies == 0` guard. -/
def score_dependency_changes (m : MigrationParams) : ℚ :=
  let num_dependencies := m.num_dependencies.getD 20
  let dependencies_to_replace := m.dependencies_to_replace.getD 5
  if num_dependencies = 0 then 1
  else
    let replacement_pct := dependencies_to_replace / num_dependencies * 100
    if replacement_pct < 10 then 2
    else if replacement_pct < 25 then 4
    else if replacement_pct < 50 then 6
    else if replacement_pct < 75 then 8
    else 10

/-- `MigrationAnalyzer._score_testing_requirements`. -/
def score_testing_requirements (m : MigrationParams) : ℚ :=
  let test_coverage := m.current_test_coverage.getD 0.5
  let num_tests := m.num_tests.getD 100
  let base_score : ℚ :=
    if test_coverage ≥ 0.8 then 3
    else if test_coverage ≥ 0.6 then 5
    else if test_coverage ≥ 0.4 then 7
    else 9
  if num_tests > 500 then min 10 (base_score + 1) else base_score

/-- `MigrationAnalyzer.calculate_complexity_score`: the fixed-weight overall
score (the per-factor components are returned alongside it). -/
def overall_complexity (m : MigrationParams) : ℚ :=
  score_code_volume m * 0.20 + score_architecture_changes m * 0.25 +
    score_data_migration m * 0.20 + score_api_compatibility m * 0.15 +
    score_dependency_changes m * 0.10 + score_testing_requirements m * 0.10

/-- The effort-estimate fields of `estimate_effort` that the claims use. -/
structure EffortResult where
  total_hours : ℚ
  total_person_months : ℚ
  dev_weeks : ℚ
  calendar_weeks : ℚ
  calendar_months : ℚ

/-- `MigrationAnalyzer.estimate_effort`: the timeline division by
`team_size * hours_per_week_per_dev` carries no zero-check. -/
def estimate_effort (m : MigrationParams) : Except String EffortResult := do
  let overall := overall_complexity m
  let lines_of_code := m.lines_of_code.getD 10000
  let base_hours := lines_of_code / 50
  let complexity_multiplier := 1 + overall / 10
  let estimated_hours := base_hours * complexity_multiplier
  let team_size := m.team_size.getD 3
  let hours_per_week_per_dev := m.hours_per_week.getD 30
  let total_dev_weeks ←
    pydiv estimated_hours (team_size * hours_per_week_per_dev)
  let total_calendar_weeks := total_dev_weeks * 1.2
  Except.ok
    { total_hours := estimated_hours
      total_person_months := estimated_hours / 160
      dev_weeks := total_dev_weeks
      calendar_weeks := total_calendar_weeks
      calendar_months := total_calendar_weeks / 4.33 }

/-- The result of `_recommend_migration_approach`. -/
structure MigrationApproach where
  approach : String
  description : String
  timeline_multiplier : ℚ
  phases : List String

/-- The fixed phase list of the direct-migration approach. -/
def direct_migration_phases : List String :=
  ["Phase 1: Set up target environment and migrate configuration",
   "Phase 2: Migrate codebase and dependencies",
   "Phase 3: Migrate data with validation",
   "Phase 4: Comprehensive testing",
   "Phase 5: Cutover and monitoring"]

/-- The fixed phase list of the phased-migration approach. -/
def phased_migration_phases : List String :=
  ["Phase 1: Identify and prioritize components for migration",
   "Phase 2: Migrate non-critical components first",
   "Phase 3: Migrate core components with parallel running",
   "Phase 4: Migrate critical components with rollback plan",
   "Phase 5: Decommission old system"]

/-- The fixed phase list of the strangler-pattern approach. -/
def strangler_pattern_phases : List String :=
  ["Phase 1: Set up routing layer between old and new systems",
   "Phase 2: Implement new features in target technology only",
   "Phase 3: Gradually migrate existing features (lowest risk first)",
   "Phase 4: Migrate high-risk components last with extensive testing",
   "Phase 5: Complete migration and remove routing layer"]

/-- `MigrationAnalyzer._generate_approach_phases`. -/
def generate_approach_phases (approach : String) : List String :=
  (alget [("direct_migration", direct_migration_phases),
    ("phased_migration", phased_migration_phases),
    ("strangler_pattern", strangler_pattern_phases)] approach).getD
    phased_migration_phases

/-- `MigrationAnalyzer._recommend_migration_approach`. -/
def recommend_migration_approach (complexity_score : ℚ) : MigrationApproach :=
  if complexity_score ≤ 3 then
    { approach := "direct_migration"
      description :=
        "Direct migration - low complexity allows straightforward migration"
      timeline_multiplier := 1.0
      phases := generate_approach_phases "direct_migration" }
  else if complexity_score ≤ 6 then
    { approach := "phased_migration"
      description :=
        "Phased migration - migrate components incrementally to manage risk"
      timeline_multiplier := 1.3
      phases := generate_approach_phases "phased_migration" }
  else
    { approach := "strangler_pattern"
      description :=
        "Strangler pattern - gradually replace old system while running in parallel"
      timeline_multiplier := 1.5
      phases := generate_approach_phases "strangler_pattern" }

end MigrationAnalyzer

namespace EcosystemAnalyzer

/-- The five health-score components returned by `calculate_health_score`
and consumed by the viability assessment. -/
structure HealthComponents where
  github_health : ℚ
  npm_health : ℚ
  community_health : ℚ
  corporate_backing : ℚ
  maintenance_health : ℚ

/-- The per-component risk strings of `_identify_viability_risks`. -/
def maintenance_risk : String :=
  "Low maintenance activity - slow issue resolution"

/-- Risk string for the GitHub component. -/
def github_risk : String := "Limited GitHub activity - smaller community"

/-- Risk string for the corporate-backing component. -/
def corporate_risk : String :=
  "Weak corporate backing - sustainability concerns"

/-- Risk string for the npm component. -/
def npm_risk : String := "Low npm adoption - limited ecosystem"

/-- Risk string for the community component. -/
def community_risk : String :=
  "Small community - limited resources and support"

/-- Placeholder returned when no component crosses a risk threshold. -/
def no_risk : String := "No significant risks identified"

/-- `EcosystemAnalyzer._identify_viability_risks`: one fixed risk string per
component whose score is below its threshold (50 for maintenance, GitHub and
community; 40 for corporate backing; 50 for npm, only when npm data is
present); a placeholder when none crosses.  `npm_present` models the
truthiness of `self.npm_data`. -/
def identify_viability_risks (h : HealthComponents) (npm_present : Bool) :
    List String :=
  let risks :=
    (if h.maintenance_health < 50 then [maintenance_risk] else []) ++
    (if h.github_health < 50 then [github_risk] else []) ++
    (if h.corporate_backing < 40 then [corporate_risk] else []) ++
    (if h.npm_health < 50 ∧ npm_present then [npm_risk] else []) ++
    (if h.community_health < 50 then [community_risk] else [])
  if risks = [] then [no_risk] else risks

/-- Strength string for the maintenance component. -/
def maintenance_strength : String :=
  "Active maintenance with responsive issue resolution"

/-- Strength string for the GitHub component. -/
def github_strength : String :=
  "Strong GitHub presence with active community"

/-- Strength string for the corporate-backing component. -/
def corporate_strength : String :=
  "Strong corporate backing ensures sustainability"

/-- Strength string for the npm component. -/
def npm_strength : String := "High npm adoption with stable releases"

/-- Strength string for the community component. -/
def community_strength : String :=
  "Large, active community with extensive resources"

/-- Placeholder returned when no component crosses a strength threshold. -/
def no_strength : String := "Baseline viability maintained"

/-- `EcosystemAnalyzer._identify_viability_strengths`: one fixed strength
string per component whose score is at least 70 (npm only when npm data is
present); a placeholder when none crosses. -/
def identify_viability_strengths (h : HealthComponents)
    (npm_present : Bool) : List String :=
  let strengths :=
    (if h.maintenance_health ≥ 70 then [maintenance_strength] else []) ++
    (if h.github_health ≥ 70 then [github_strength] else []) ++
    (if h.corporate_backing ≥ 70 then [corporate_strength] else []) ++
    (if h.npm_health ≥ 70 ∧ npm_present then [npm_strength] else []) ++
    (if h.community_health ≥ 70 then [community_strength] else [])
  if strengths = [] then [no_strength] else strengths

end EcosystemAnalyzer

namespace SecurityAssessor

/-- The fixed compliance standards and their required-feature lists. -/
def COMPLIANCE_STANDARDS : List (String × List String) :=
  [("GDPR", ["data_privacy", "consent_management", "data_portability",
     "right_to_deletion", "audit_logging"]),
   ("SOC2", ["access_controls", "encryption_at_rest",
     "encryption_in_transit", "audit_logging", "backup_recovery"]),
   ("HIPAA", ["phi_protection", "encryption_at_rest",
     "encryption_in_transit", "access_controls", "audit_logging"]),
   ("PCI_DSS", ["payment_data_encryption", "access_controls",
     "network_security", "vulnerability_management"])]

/-- A compliance-assessment entry: either the unknown-standard dict
(`readiness`/`score`/`status` fields) or the full readiness assessment of a
recognized standard. -/
inductive ComplianceEntry where
  | unknown (readiness : String) (score : ℚ) (status : String)
  | readiness (readiness_level : String) (readiness_percentage : ℚ)
      (status : String) (features_met : ℕ) (features_required : ℕ)
      (missing_features : List String) (recommendation : String)
deriving DecidableEq

/-- `SecurityAssessor._generate_compliance_recommendation`. -/
def generate_compliance_recommendation (readiness_level : String)
    (missing_features : List String) : String :=
  if readiness_level = "Ready" then
    "Proceed with compliance audit and certification"
  else if readiness_level = "Mostly Ready" then
    "Implement missing features: " ++
      String.intercalate ", " (missing_features.take 3)
  else if readiness_level = "Partial" then
    "Significant implementation needed. Start with: " ++
      String.intercalate ", " (missing_features.take 3)
  else "Not recommended without major security enhancements"

/-- `SecurityAssessor._assess_standard_readiness` (only ever called on the
recognized standards): met/required feature ratio, guarded on an empty
requirement list, banded into a 4-tier readiness level. -/
def assess_standard_readiness (security_features : List (String × Bool))
    (standard : String) : ComplianceEntry :=
  let required_features := (alget COMPLIANCE_STANDARDS standard).getD []
  let met := required_features.filter
    (fun f => (alget security_features f).getD false)
  let missing_features := required_features.filter
    (fun f => ¬ (alget security_features f).getD false)
  let met_count := met.length
  let total_count := required_features.length
  let readiness_pct : ℚ :=
    if 0 < total_count then (met_count : ℚ) / (total_count : ℚ) * 100 else 0
  let readiness_level :=
    if readiness_pct ≥ 90 then "Ready"
    else if readiness_pct ≥ 70 then "Mostly Ready"
    else if readiness_pct ≥ 50 then "Partial"
    else "Not Ready"
  let status :=
    if readiness_pct ≥ 90 then "Compliant - meets all requirements"
    else if readiness_pct ≥ 70 then
      "Minor gaps - additional configuration needed"
    else if readiness_pct ≥ 50 then "Significant work required"
    else "Major gaps - extensive implementation needed"
  ComplianceEntry.readiness readiness_level readiness_pct status met_count
    total_count missing_features
    (generate_compliance_recommendation readiness_level missing_features)

/-- `SecurityAssessor.assess_compliance`: one results entry per requested
standard, in order; unrecognized standards receive the fixed
unknown-standard entry instead of being skipped or raising. -/
def assess_compliance (security_features : List (String × Bool))
    (standards : List String) : List (String × ComplianceEntry) :=
  standards.foldl
    (fun results standard =>
      if (alget COMPLIANCE_STANDARDS standard).isNone then
        alset results standard
          (ComplianceEntry.unknown "Unknown" 0 "Unknown standard")
      else
        alset results standard
          (assess_standard_readiness security_features standard))
    []

end SecurityAssessor

namespace ReportGenerator

/-- `ReportGenerator._detect_context`: the `CLAUDE_DESKTOP` environment
variable (truthy when set and non-empty) forces `desktop`; otherwise an
interactive stdout selects `cli` and a non-interactive one falls back to
`desktop`. -/
def detect_context (claude_desktop_env : Option String)
    (stdout_isatty : Bool) : String :=
  if (match claude_desktop_env with
      | some v => v != ""
      | none => false : Bool) then "desktop"
  else if stdout_isatty then "cli"
  else "desktop"

/-- `ReportGenerator.__init__`: `output_context or self._detect_context()` —
an absent or empty (falsy) explicit context triggers detection. -/
def output_context (explicit : Option String)
    (claude_desktop_env : Option String) (stdout_isatty : Bool) : String :=
  match explicit with
  | some v =>
    if v = "" then detect_context claude_desktop_env stdout_isatty else v
  | none => detect_context claude_desktop_env stdout_isatty

end ReportGenerator

/-- A Python value as produced by parsing (`json.loads` or the simplified
YAML reader): `None`, booleans, ints, floats (modelled as exact rationals;
the non-finite literals `NaN`/`Infinity` are outside this model and are
rejected by the embedded parser), strings, lists, insertion-ordered dicts. -/
inductive PyValue where
  | noneV
  | bool (b : Bool)
  | int (n : ℤ)
  | float (q : ℚ)
  | str (s : String)
  | list (xs : List PyValue)
  | dict (kvs : List (String × PyValue))

namespace FormatDetector

/-- Strip leading and trailing whitespace from a character list
(Python `str.strip()`, ASCII whitespace model). -/
def stripChars (cs : List Char) : List Char :=
  ((cs.dropWhile Char.isWhitespace).reverse.dropWhile
    Char.isWhitespace).reverse

/-- Python `str.strip()`. -/
def pyStrip (s : String) : String := ⟨stripChars s.data⟩

/-- Split a character list on a separator, keeping empty segments
(Python `str.split(sep)`). -/
def splitOnChar (sep : Char) : List Char → List (List Char)
  | [] => [[]]
  | c :: rest =>
    let r := splitOnChar sep rest
    if c = sep then [] :: r
    else
      match r with
      | h :: t => (c :: h) :: t
      | [] => [[c]]

/-- The lines of a string, split on newline (`raw_input.split(chr(10))`). -/
def splitLines (s : String) : List (List Char) := splitOnChar '\n' s.data

/-- Skip JSON whitespace. -/
def skipWs : List Char → List Char
  | [] => []
  | c :: cs => if c.isWhitespace then skipWs cs else c :: cs

/-- Drop a literal prefix, returning the remainder on success. -/
def dropLit : List Char → List Char → Option (List Char)
  | [], cs => some cs
  | _ :: _, [] => none
  | l :: ls, c :: cs => if c = l then dropLit ls cs else none

/-- The numeric value of a hexadecimal digit. -/
def hexVal (c : Char) : Option ℕ :=
  if c.isDigit then some (c.toNat - 48)
  else if 'a' ≤ c ∧ c ≤ 'f' then some (c.toNat - 87)
  else if 'A' ≤ c ∧ c ≤ 'F' then some (c.toNat - 55)
  else none

/-- Parse the body of a JSON string (after the opening quote), with the
standard escapes; raw control characters are rejected as in the strict
default mode of `json.loads`.  A `\u` escape becomes the scalar value of its
four hex digits (surrogate-pair combination is outside the `Char` model). -/
def parseJsonStr : ℕ → List Char → Except String (String × List Char)
  | 0, _ => Except.error "Unterminated string"
  | _ + 1, [] => Except.error "Unterminated string"
  | fuel + 1, c :: cs =>
    if c = '"' then Except.ok ("", cs)
    else if c = '\\' then
      match cs with
      | [] => Except.error "Unterminated string"
      | e :: cs1 =>
        let esc : Option (Char × List Char) :=
          if e = '"' then some ('"', cs1)
          else if e = '\\' then some ('\\', cs1)
          else if e = '/' then some ('/', cs1)
          else if e = 'b' then some (Char.ofNat 8, cs1)
          else if e = 'f' then some (Char.ofNat 12, cs1)
          else if e = 'n' then some ('\n', cs1)
          else if e = 'r' then some ('\r', cs1)
          else if e = 't' then some ('\t', cs1)
          else if e = 'u' then
            match cs1 with
            | h1 :: h2 :: h3 :: h4 :: cs2 =>
              match hexVal h1, hexVal h2, hexVal h3, hexVal h4 with
              | some a, some b, some c2, some d =>
                some (Char.ofNat (((a * 16 + b) * 16 + c2) * 16 + d), cs2)
              | _, _, _, _ => none
            | _ => none
          else none
        match esc with
        | some chRest => do
          let (s, rest2) ← parseJsonStr fuel chRest.2
          Except.ok (⟨chRest.1 :: s.data⟩, rest2)
        | none => Except.error "Invalid escape"
    else if c.toNat < 32 then Except.error "Invalid control character"
    else do
      let (s, rest) ← parseJsonStr fuel cs
      Except.ok (⟨c :: s.data⟩, rest)

/-- The natural number denoted by a digit list. -/
def digitsToNat (ds : List Char) : ℕ :=
  ds.foldl (fun a c => a * 10 + (c.toNat - 48)) 0

/-- The value of a parsed JSON number: a float when a fraction or exponent is
present, an int otherwise. -/
def jsonNumValue (neg : Bool) (iv : ℕ) (hasFrac : Bool) (fv fc : ℕ)
    (hasExp : Bool) (ev : ℤ) : PyValue :=
  if hasFrac ∨ hasExp then
    let mant : ℚ := (iv : ℚ) + (fv : ℚ) / 10 ^ fc
    PyValue.float ((if neg then -mant else mant) * (10 : ℚ) ^ ev)
  else PyValue.int (if neg then -(iv : ℤ) else (iv : ℤ))

/-- Parse an optional JSON fraction part. -/
def jsonFracPart : List Char → Except String (Bool × ℕ × ℕ × List Char)
  | '.' :: r =>
    let fds := r.takeWhile Char.isDigit
    if fds.isEmpty then Except.error "Expecting digit"
    else
      Except.ok (true, digitsToNat fds, fds.length, r.dropWhile Char.isDigit)
  | r => Except.ok (false, 0, 0, r)

/-- Parse an optional JSON exponent part. -/
def jsonExpPart : List Char → Except String (Bool × ℤ × List Char)
  | [] => Except.ok (false, 0, [])
  | c :: r =>
    if c = 'e' ∨ c = 'E' then
      let signRest : Bool × List Char :=
        match r with
        | '+' :: r2 => (false, r2)
        | '-' :: r2 => (true, r2)
        | r2 => (false, r2)
      let eds := signRest.2.takeWhile Char.isDigit
      if eds.isEmpty then Except.error "Expecting digit"
      else
        Except.ok (true,
          (if signRest.1 then -(digitsToNat eds : ℤ) else (digitsToNat eds : ℤ)),
          signRest.2.dropWhile Char.isDigit)
    else Except.ok (false, 0, c :: r)

/-- Parse a JSON number (grammar `-?(0|[1-9][0-9]*)(.[0-9]+)?([eE][+-]?[0-9]+)?`). -/
def parseJsonNumber (cs : List Char) :
    Except String (PyValue × List Char) := do
  let negRest : Bool × List Char :=
    match cs with
    | '-' :: rest => (true, rest)
    | rest => (false, rest)
  match negRest.2 with
  | [] => Except.error "Expecting value"
  | c :: rest =>
    if c.isDigit then
      let intRest : List Char × List Char :=
        if c = '0' then ([c], rest)
        else (negRest.2.takeWhile Char.isDigit,
          negRest.2.dropWhile Char.isDigit)
      let (hasFrac, fv, fc, r2) ← jsonFracPart intRest.2
      let (hasExp, ev, r3) ← jsonExpPart r2
      Except.ok
        (jsonNumValue negRest.1 (digitsToNat intRest.1) hasFrac fv fc hasExp
          ev, r3)
    else Except.error "Expecting value"

/-- The parsing mode of the JSON reader: a single value, the members of an
array after its first element, or the members of an object. -/
inductive JMode where
  | value
  | arrayTail
  | objectMembers

/-- The recursive JSON reader (fuel-indexed recursive descent).  In
`arrayTail` mode the result is a `PyValue.list` of the remaining elements; in
`objectMembers` mode it is a `PyValue.dict` of the members in textual order
(duplicates included). -/
def jrun : ℕ → JMode → List Char → Except String (PyValue × List Char)
  | 0, _, _ => Except.error "Too deeply nested"
  | fuel + 1, JMode.value, cs =>
    match skipWs cs with
    | [] => Except.error "Expecting value"
    | c :: cs1 =>
      if c = 'n' then
        match dropLit "ull".data cs1 with
        | some rest => Except.ok (PyValue.noneV, rest)
        | none => Except.error "Expecting value"
      else if c = 't' then
        match dropLit "rue".data cs1 with
        | some rest => Except.ok (PyValue.bool true, rest)
        | none => Except.error "Expecting value"
      else if c = 'f' then
        match dropLit "alse".data cs1 with
        | some rest => Except.ok (PyValue.bool false, rest)
        | none => Except.error "Expecting value"
      else if c = '"' then do
        let (s, rest) ← parseJsonStr (cs1.length + 1) cs1
        Except.ok (PyValue.str s, rest)
      else if c = '[' then
        match skipWs cs1 with
        | ']' :: rest => Except.ok (PyValue.list [], rest)
        | cs2 => do
          let (v, cs3) ← jrun fuel JMode.value cs2
          match ← jrun fuel JMode.arrayTail cs3 with
          | (PyValue.list vs, rest) => Except.ok (PyValue.list (v :: vs), rest)
          | _ => Except.error "Malformed array"
      else if c = '{' then
        match skipWs cs1 with
        | '}' :: rest => Except.ok (PyValue.dict [], rest)
        | cs2 => do
          match ← jrun fuel JMode.objectMembers cs2 with
          | (PyValue.dict kvs, rest) =>
            Except.ok
              (PyValue.dict (kvs.foldl (fun acc kv => alset acc kv.1 kv.2) []),
                rest)
          | _ => Except.error "Malformed object"
      else if c.isDigit ∨ c = '-' then parseJsonNumber (c :: cs1)
      else Except.error "Expecting value"
  | fuel + 1, JMode.arrayTail, cs =>
    match skipWs cs with
    | ']' :: rest => Except.ok (PyValue.list [], rest)
    | ',' :: cs1 => do
      let (v, cs2) ← jrun fuel JMode.value cs1
      match ← jrun fuel JMode.arrayTail cs2 with
      | (PyValue.list vs, rest) => Except.ok (PyValue.list (v :: vs), rest)
      | _ => Except.error "Malformed array"
    | _ => Except.error "Expecting delimiter"
  | fuel + 1, JMode.objectMembers, cs =>
    match skipWs cs with
    | '"' :: cs1 => do
      let (k, cs2) ← parseJsonStr (cs1.length + 1) cs1
      match skipWs cs2 with
      | ':' :: cs3 => do
        let (v, cs4) ← jrun fuel JMode.value cs3
        match skipWs cs4 with
        | ',' :: cs5 =>
          (do
            match ← jrun fuel JMode.objectMembers cs5 with
            | (PyValue.dict kvs, rest) =>
              Except.ok (PyValue.dict ((k, v) :: kvs), rest)
            | _ => Except.error "Malformed object")
        | '}' :: cs5 => Except.ok (PyValue.dict [(k, v)], cs5)
        | _ => Except.error "Expecting delimiter"
      | _ => Except.error "Expecting colon"
    | _ => Except.error "Expecting property name"

/-- `json.loads`: parse one JSON value, then require only whitespace to
remain. -/
def json_loads (s : String) : Except String PyValue :=
  match jrun (s.data.length + 1) JMode.value s.data with
  | Except.ok vRest =>
    if (skipWs vRest.2).isEmpty then Except.ok vRest.1
    else Except.error "Extra data"
  | Except.error e => Except.error e

/-- `FormatDetector._is_json`. -/
def is_json (raw : String) : Bool :=
  match json_loads raw with
  | Except.ok _ => true
  | Except.error _ => false

/-- Python regex word character (ASCII model of `\w`). -/
def isWordChar (c : Char) : Bool := c.isAlphanum || c = '_'

/-- The YAML key-value line pattern (regex `^\s*[\w\-]+\s*:` under
`re.match`). -/
def matches_key_value (cs : List Char) : Bool :=
  let cs1 := cs.dropWhile Char.isWhitespace
  let word := cs1.takeWhile (fun c => isWordChar c || c = '-')
  let cs2 := (cs1.dropWhile (fun c => isWordChar c || c = '-')).dropWhile
    Char.isWhitespace
  (!word.isEmpty) &&
    (match cs2 with
     | ':' :: _ => true
     | _ => false)

/-- The YAML list-item line pattern (regex `^\s*-\s+` under `re.match`). -/
def matches_list_item (cs : List Char) : Bool :=
  match cs.dropWhile Char.isWhitespace with
  | '-' :: c :: _ => c.isWhitespace
  | _ => false

/-- The trailing-colon line pattern (regex `:\s*$` under `re.match`, so it
only matches lines that begin with the colon). -/
def matches_trailing_colon (cs : List Char) : Bool :=
  match cs with
  | ':' :: rest => (rest.dropWhile Char.isWhitespace).isEmpty
  | _ => false

/-- `FormatDetector._is_yaml`: not JSON, and more than half of the lines
match one of the three YAML line patterns. -/
def is_yaml (raw : String) : Bool :=
  if is_json raw then false
  else
    let lines := splitLines raw
    let yaml_line_count := (lines.filter (fun l =>
      matches_key_value l || matches_list_item l ||
        matches_trailing_colon l)).length
    decide (0 < lines.length) &&
      decide ((1 : ℚ) / 2 < (yaml_line_count : ℚ) / (lines.length : ℚ))

/-- A match of the regex `https?://[^\s]+` anchored at the given position:
the protocol followed by at least one non-whitespace character, greedily. -/
def urlAt (cs : List Char) : Option (List Char × List Char) :=
  let protoRest : Option (List Char × List Char) :=
    match dropLit "https://".data cs with
    | some r => some ("https://".data, r)
    | none =>
      match dropLit "http://".data cs with
      | some r => some ("http://".data, r)
      | none => none
  match protoRest with
  | none => none
  | some pr =>
    let tail := pr.2.takeWhile (fun c => !c.isWhitespace)
    if tail.isEmpty then none
    else some (pr.1 ++ tail, pr.2.dropWhile (fun c => !c.isWhitespace))

/-- Left-to-right non-overlapping scan for URL matches: the matches
(`re.findall`) together with the unmatched text (`re.sub(pattern, r.empty)`). -/
def scanUrls : ℕ → List Char → (List String × List Char)
  | 0, cs => ([], cs)
  | _ + 1, [] => ([], [])
  | fuel + 1, c :: cs =>
    match urlAt (c :: cs) with
    | some mRest =>
      let r := scanUrls fuel mRest.2
      (⟨mRest.1⟩ :: r.1, r.2)
    | none =>
      let r := scanUrls fuel cs
      (r.1, c :: r.2)

/-- `FormatDetector._contains_urls`. -/
def contains_urls (raw : String) : Bool :=
  !(scanUrls (raw.data.length + 1) raw.data).1.isEmpty

/-- `FormatDetector.detect_format`: JSON, then the YAML heuristic, then a
URL presence check, defaulting to conversational text. -/
def detect_format (raw : String) : String :=
  if is_json raw then "json"
  else if is_yaml raw then "yaml"
  else if contains_urls raw then "url"
  else "text"

/-- The standard keys ensured by `_normalize_structure`. -/
def standard_keys : List String :=
  ["technologies", "use_case", "priorities", "analysis_type", "format"]

/-- The per-key defaults of `_normalize_structure`. -/
def default_for (fmt : String) (key : String) : Option PyValue :=
  alget
    [("technologies", PyValue.list []),
     ("use_case", PyValue.str "general"),
     ("priorities", PyValue.list []),
     ("analysis_type", PyValue.str "comparison"),
     ("format", PyValue.str (if fmt = "" then "unknown" else fmt))] key

/-- Python equality of a parsed value against a string key, as used by
`key not in normalized` for list membership. -/
def pyEqStrKey (v : PyValue) (k : String) : Bool :=
  match v with
  | PyValue.str s => s == k
  | _ => false

/-- `FormatDetector._normalize_structure`: `data.copy()` then the insertion
of defaults for missing standard keys.  On a dict this fills the missing
keys; on a list, `data.copy()` succeeds but the first missing standard key
triggers a `TypeError` at `normalized[key] = ...`; every other parse result
(`None`, numbers, booleans, strings) has no `copy` attribute and raises
`AttributeError`. -/
def normalize_structure (fmt : String) (data : PyValue) :
    Except String PyValue :=
  match data with
  | PyValue.dict kvs =>
    Except.ok (PyValue.dict (standard_keys.foldl (fun acc k =>
      if (alget acc k).isSome then acc
      else alset acc k ((default_for fmt k).getD PyValue.noneV)) kvs))
  | PyValue.list xs =>
    if standard_keys.all (fun k => xs.any (fun v => pyEqStrKey v k)) then
      Except.ok (PyValue.list xs)
    else Except.error "TypeError"
  | _ => Except.error "AttributeError"

/-- `FormatDetector._parse_json`: only a JSON decoding failure is caught and
degraded to the error-tagged dict; exceptions from `_normalize_structure`
propagate. -/
def parse_json (raw : String) : Except String PyValue :=
  match json_loads raw with
  | Except.ok data => normalize_structure "json" data
  | Except.error _ =>
    Except.ok (PyValue.dict
      [("error", PyValue.str "Invalid JSON"), ("raw", PyValue.str raw)])

/-- Sign prefix of a Python numeric literal. -/
def signSplit : List Char → (Bool × List Char)
  | '+' :: rest => (true, rest)
  | '-' :: rest => (true, rest)
  | rest => (false, rest)

/-- Whether the sign prefix is negative. -/
def negSplit : List Char → (Bool × List Char)
  | '+' :: rest => (false, rest)
  | '-' :: rest => (true, rest)
  | rest => (false, rest)

/-- Parse a full digit run with Python underscore grouping (an underscore
must sit between two digits); `none` on any other character. -/
def digitsUndGo (acc : ℕ) : List Char → Option ℕ
  | [] => some acc
  | c :: cs =>
    if c.isDigit then digitsUndGo (acc * 10 + (c.toNat - 48)) cs
    else if c = '_' then
      match cs with
      | [] => none
      | d :: cs2 =>
        if d.isDigit then digitsUndGo (acc * 10 + (d.toNat - 48)) cs2
        else none
    else none

/-- Python `int(s)` on a stripped string. -/
def pyIntOfChars (cs : List Char) : Option ℤ :=
  let nr := negSplit cs
  match nr.2 with
  | c :: _ =>
    if c.isDigit then
      (digitsUndGo 0 nr.2).map (fun n =>
        if nr.1 then -(n : ℤ) else (n : ℤ))
    else none
  | [] => none

/-- Consume a maximal digit run with underscore grouping, returning the
value, the digit count and the remainder. -/
def takeDigitsUnd (acc cnt : ℕ) : List Char → (ℕ × ℕ × List Char)
  | [] => (acc, cnt, [])
  | c :: cs =>
    if c.isDigit then takeDigitsUnd (acc * 10 + (c.toNat - 48)) (cnt + 1) cs
    else if c = '_' then
      match cs with
      | [] => (acc, cnt, [c])
      | d :: cs2 =>
        if d.isDigit then
          takeDigitsUnd (acc * 10 + (d.toNat - 48)) (cnt + 1) cs2
        else (acc, cnt, c :: cs)
    else (acc, cnt, c :: cs)

/-- The optional exponent tail of a Python float literal. -/
def pyFloatExp (m : ℚ) : List Char → Option ℚ
  | [] => some m
  | c :: rest =>
    if c = 'e' ∨ c = 'E' then
      let nr := negSplit rest
      let t := takeDigitsUnd 0 0 nr.2
      if t.2.1 = 0 ∨ !t.2.2.isEmpty then none
      else some (m * (10 : ℚ) ^ (if nr.1 then -(t.1 : ℤ) else (t.1 : ℤ)))
    else none

/-- Python `float(s)` on a stripped string (finite decimal literals; the
`inf`/`nan` spellings contain no dot and are never routed here by
`_parse_value`). -/
def pyFloatOfChars (cs : List Char) : Option ℚ :=
  let nr := negSplit cs
  let sign : ℚ := if nr.1 then -1 else 1
  let t1 := takeDigitsUnd 0 0 nr.2
  match t1.2.2 with
  | '.' :: r2 =>
    let t2 := takeDigitsUnd 0 0 r2
    if t1.2.1 = 0 ∧ t2.2.1 = 0 then none
    else pyFloatExp (sign * ((t1.1 : ℚ) + (t2.1 : ℚ) / 10 ^ t2.2.1)) t2.2.2
  | r1 =>
    if t1.2.1 = 0 then none else pyFloatExp (sign * (t1.1 : ℚ)) r1

/-- Strip a matching pair of surrounding quotes, if present. -/
def unquote (v : List Char) : List Char :=
  let sq := Char.ofNat 39
  match v with
  | [] => []
  | c :: _ =>
    if c = '"' ∧ v.getLast? = some '"' then (v.drop 1).dropLast
    else if c = sq ∧ v.getLast? = some sq then (v.drop 1).dropLast
    else v

/-- `FormatDetector._parse_value`: booleans, then numbers (floats only when
a dot is present), then quote-stripped strings. -/
def parse_value (value : List Char) : PyValue :=
  let v := stripChars value
  let lower := v.map Char.toLower
  if lower == "true".data || lower == "yes".data then PyValue.bool true
  else if lower == "false".data || lower == "no".data then PyValue.bool false
  else if v.contains '.' then
    match pyFloatOfChars v with
    | some q => PyValue.float q
    | none => PyValue.str ⟨unquote v⟩
  else
    match pyIntOfChars v with
    | some n => PyValue.int n
    | none => PyValue.str ⟨unquote v⟩

/-- The mutable state of the `_parse_yaml` line loop: the result dict, the
current section name, and whether the section value has been replaced by a
list (`current_list is not None`, which aliases `result[current_section]`). -/
structure YamlState where
  result : List (String × PyValue)
  current_section : Option String
  current_list : Bool

/-- Python truthiness of the current section name. -/
def sectionTruthy : Option String → Bool
  | some s => s != ""
  | none => false

/-- Split at the first colon (`str.split(colon, 1)`). -/
def splitFirstColon : List Char → (List Char × List Char)
  | [] => ([], [])
  | c :: cs =>
    if c = ':' then ([], cs)
    else
      let r := splitFirstColon cs
      (c :: r.1, r.2)

/-- One line of `FormatDetector._parse_yaml`.  A key with an empty value
opens a section; a key-value pair under a section whose value has been
replaced by a list raises `TypeError` (list indices must be integers); list
items outside a truthy section are dropped. -/
def yaml_step (st : YamlState) (line : List Char) :
    Except String YamlState :=
  let stripped := stripChars line
  match stripped with
  | [] => Except.ok st
  | c :: rest =>
    if c = '#' then Except.ok st
    else if stripped.contains ':' then
      let kv := splitFirstColon stripped
      let key : String := ⟨stripChars kv.1⟩
      let value := stripChars kv.2
      if value.isEmpty then
        Except.ok
          { result := alset st.result key (PyValue.dict [])
            current_section := some key
            current_list := false }
      else
        let pv := parse_value value
        if sectionTruthy st.current_section then
          let sec := st.current_section.getD ""
          match alget st.result sec with
          | some (PyValue.dict d) =>
            Except.ok
              { st with result := alset st.result sec (PyValue.dict (alset d key pv)) }
          | _ => Except.error "TypeError"
        else Except.ok { st with result := alset st.result key pv }
    else if c = '-' then
      let item := stripChars rest
      if sectionTruthy st.current_section then
        let sec := st.current_section.getD ""
        if st.current_list then
          match alget st.result sec with
          | some (PyValue.list xs) =>
            Except.ok
              { st with result := alset st.result sec (PyValue.list (xs ++ [parse_value item])) }
          | _ => Except.error "TypeError"
        else
          Except.ok
            { result := alset st.result sec (PyValue.list [parse_value item])
              current_section := st.current_section
              current_list := true }
      else Except.ok st
    else Except.ok st

/-- `FormatDetector._parse_yaml`. -/
def parse_yaml (raw : String) : Except String PyValue := do
  let st ← (splitLines raw).foldlM yaml_step
    { result := [], current_section := none, current_list := false }
  normalize_structure "yaml" (PyValue.dict st.result)

/-- `FormatDetector._parse_urls`. -/
def parse_urls (raw : String) : Except String PyValue :=
  let scanned := scanUrls (raw.data.length + 1) raw.data
  let urls := scanned.1
  let github_urls := urls.filter (fun u => strContainsSub u "github.com")
  let npm_urls := urls.filter (fun u =>
    strContainsSub u "npmjs.com" || strContainsSub u "npm.io")
  let other_urls := urls.filter (fun u =>
    !(github_urls.contains u) && !(npm_urls.contains u))
  let context : String := ⟨stripChars scanned.2⟩
  normalize_structure "url" (PyValue.dict
    [("format", PyValue.str "url"),
     ("urls", PyValue.dict
       [("github", PyValue.list (github_urls.map PyValue.str)),
        ("npm", PyValue.list (npm_urls.map PyValue.str)),
        ("other", PyValue.list (other_urls.map PyValue.str))]),
     ("context", PyValue.str context)])

/-- The fixed technology vocabulary of `_extract_technologies`. -/
def TECH_KEYWORDS : List String :=
  ["react", "vue", "angular", "svelte", "next.js", "nuxt.js", "node.js",
   "python", "java", "go", "rust", "ruby", "postgresql", "postgres",
   "mysql", "mongodb", "redis", "aws", "azure", "gcp", "google cloud",
   "docker", "kubernetes", "k8s", "express", "fastapi", "django", "flask",
   "spring boot"]

/-- The spelling-normalization table of `_extract_technologies`. -/
def TECH_NORMALIZE : List (String × String) :=
  [("postgres", "PostgreSQL"), ("next.js", "Next.js"),
   ("nuxt.js", "Nuxt.js"), ("node.js", "Node.js"), ("k8s", "Kubernetes"),
   ("gcp", "Google Cloud Platform")]

/-- Python `str.title()` (a letter run is capitalized on its first letter,
later letters lowercased; ASCII model). -/
def pyTitleGo : Bool → List Char → List Char
  | _, [] => []
  | prev, c :: cs =>
    if c.isAlpha then
      (if prev then c.toLower else c.toUpper) :: pyTitleGo true cs
    else c :: pyTitleGo false cs

/-- Python `str.title()`. -/
def pyTitle (s : String) : String := ⟨pyTitleGo false s.data⟩

/-- `FormatDetector._extract_technologies`: first occurrence wins, names
normalized (table lookup, else `title()`), deduplicated in order. -/
def extract_technologies (text : String) : List String :=
  let found := TECH_KEYWORDS.foldl (fun found tech =>
    if strContainsSub text tech then
      let normalized := (alget TECH_NORMALIZE tech).getD (pyTitle tech)
      if found.contains normalized then found else found ++ [normalized]
    else found) []
  if found.isEmpty then ["Unknown"] else found

/-- The use-case keyword table of `_extract_use_case`, in source order. -/
def USE_CASE_KEYWORDS : List (String × String) :=
  [("real-time", "Real-time application"),
   ("collaboration", "Collaboration platform"),
   ("saas", "SaaS application"),
   ("dashboard", "Dashboard application"),
   ("api", "API-heavy application"),
   ("data-intensive", "Data-intensive application"),
   ("e-commerce", "E-commerce platform"),
   ("enterprise", "Enterprise application")]

/-- `FormatDetector._extract_use_case`: first matching keyword wins. -/
def extract_use_case (text : String) : String :=
  match USE_CASE_KEYWORDS.find? (fun kv => strContainsSub text kv.1) with
  | some kv => kv.2
  | none => "General purpose application"

/-- The priority keyword table of `_extract_priorities`, in source order. -/
def PRIORITY_KEYWORDS : List (String × String) :=
  [("performance", "Performance"), ("scalability", "Scalability"),
   ("developer experience", "Developer experience"),
   ("ecosystem", "Ecosystem"), ("learning curve", "Learning curve"),
   ("cost", "Cost"), ("security", "Security"),
   ("compliance", "Compliance")]

/-- `FormatDetector._extract_priorities`: every matching keyword, in table
order, with a documented default when none match. -/
def extract_priorities (text : String) : List String :=
  let priorities := (PRIORITY_KEYWORDS.filter (fun kv =>
    strContainsSub text kv.1)).map (fun kv => kv.2)
  if priorities.isEmpty then ["Developer experience", "Performance"]
  else priorities

/-- The analysis-type keyword table of `_detect_analysis_type`. -/
def ANALYSIS_TYPE_KEYWORDS : List (String × String) :=
  [("migration", "migration_analysis"), ("migrate", "migration_analysis"),
   ("tco", "tco_analysis"), ("total cost", "tco_analysis"),
   ("security", "security_analysis"), ("compliance", "security_analysis"),
   ("compare", "comparison"), ("vs", "comparison"),
   ("evaluate", "evaluation")]

/-- `FormatDetector._detect_analysis_type`: first matching keyword wins. -/
def detect_analysis_type (text : String) : String :=
  match ANALYSIS_TYPE_KEYWORDS.find? (fun kv => strContainsSub text kv.1) with
  | some kv => kv.2
  | none => "comparison"

/-- `FormatDetector._parse_text`. -/
def parse_text (raw : String) : Except String PyValue :=
  let text := pyLower raw
  normalize_structure "text" (PyValue.dict
    [("format", PyValue.str "text"),
     ("technologies",
       PyValue.list ((extract_technologies text).map PyValue.str)),
     ("use_case", PyValue.str (extract_use_case text)),
     ("priorities",
       PyValue.list ((extract_priorities text).map PyValue.str)),
     ("analysis_type", PyValue.str (detect_analysis_type text)),
     ("raw_text", PyValue.str raw)])

/-- `FormatDetector.parse` (after `__init__` strips the raw input):
dispatch on the detected format.  A Python runtime exception escaping
`parse` is an `Except.error`. -/
def parse (input_data : String) : Except String PyValue :=
  let raw := pyStrip input_data
  let fmt := detect_format raw
  if fmt = "json" then parse_json raw
  else if fmt = "yaml" then parse_yaml raw
  else if fmt = "url" then parse_urls raw
  else parse_text raw

end FormatDetector

/-! ### Association-list lemmas -/

theorem alget_eq_none_iff {α : Type} (d : List (String × α)) (k : String) :
    alget d k = none ↔ d.find? (fun kv => kv.1 == k) = none := by
  simp [alget]

theorem alset_of_absent {α : Type} (d : List (String × α)) (k : String)
    (v : α) (h : alget d k = none) : alset d k v = d ++ [(k, v)] := by
  unfold alset
  rw [if_neg]
  rw [alget_eq_none_iff] at h
  simp [h]

theorem alget_append {α : Type} (d₁ d₂ : List (String × α)) (k : String) :
    alget (d₁ ++ d₂) k = (alget d₁ k).or (alget d₂ k) := by
  simp only [alget, List.find?_append]
  cases d₁.find? (fun kv => kv.1 == k) <;> simp

theorem alget_singleton {α : Type} (k k2 : String) (v : α) :
    alget [(k, v)] k2 = if k == k2 then some v else none := by
  simp only [alget, List.find?]
  by_cases h : (k == k2) <;> simp [h, List.find?]

theorem alget_map_update_ne {α : Type} (d : List (String × α)) (k k2 : String)
    (v : α) (hne : k ≠ k2) :
    alget (d.map (fun kv => if kv.1 == k then (kv.1, v) else kv)) k2 =
      alget d k2 := by
  induction d with
  | nil => rfl
  | cons hd tl ih =>
    by_cases h1 : hd.1 == k
    · have h2 : (hd.1 == k2) = false := by
        have : hd.1 = k := by simpa using h1
        simp [this, hne]
      simp [alget, List.find?, h1, h2] at *
      exact ih
    · by_cases h2 : hd.1 == k2 <;>
        simp [alget, List.find?, h1, h2] at * <;> exact ih

theorem alget_map_update_self {α : Type} (d : List (String × α))
    (k : String) (v : α) (h : (alget d k).isSome) :
    alget (d.map (fun kv => if kv.1 == k then (kv.1, v) else kv)) k =
      some v := by
  induction d with
  | nil => simp [alget] at h
  | cons hd tl ih =>
    by_cases h1 : hd.1 == k
    · simp [alget, List.find?, h1]
    · have h2 : (alget tl k).isSome := by
        simpa [alget, List.find?, h1] using h
      simpa [alget, List.find?, h1] using ih h2

theorem alget_alset_self {α : Type} (d : List (String × α)) (k : String)
    (v : α) : alget (alset d k v) k = some v := by
  unfold alset
  by_cases h : (d.find? (fun kv => kv.1 == k)).isSome
  · rw [if_pos h]
    apply alget_map_update_self
    simpa [alget, Option.isSome_map] using h
  · rw [if_neg h, alget_append]
    have hn : alget d k = none := by
      simp only [Option.not_isSome_iff_eq_none] at h
      simp [alget, h]
    rw [hn, alget_singleton]
    simp

theorem alget_alset_ne {α : Type} (d : List (String × α)) (k k2 : String)
    (v : α) (hne : k ≠ k2) : alget (alset d k v) k2 = alget d k2 := by
  unfold alset
  by_cases h : (d.find? (fun kv => kv.1 == k)).isSome
  · rw [if_pos h]
    exact alget_map_update_ne d k k2 v hne
  · rw [if_neg h, alget_append, alget_singleton]
    have : (k == k2) = false := by simp [hne]
    simp [this]

theorem alget_foldl_set {α : Type} (f : String → α) (keys : List String)
    (init : List (String × α)) (s : String) :
    alget (keys.foldl (fun acc k => alset acc k (f k)) init) s =
      if s ∈ keys then some (f s) else alget init s := by
  induction keys generalizing init with
  | nil => simp
  | cons k rest ih =>
    simp only [List.foldl_cons, ih, List.mem_cons]
    by_cases hmem : s ∈ rest
    · simp [hmem]
    · by_cases hk : s = k
      · subst hk
        simp [hmem, alget_alset_self]
      · have : ¬ (s = k ∨ s ∈ rest) := by tauto
        simp [hmem, hk, this, alget_alset_ne init k s (f k) (Ne.symm hk)]

theorem foldl_alset_append {α : Type} (items : List (String × α))
    (acc : List (String × α))
    (hdisj : ∀ kv ∈ items, alget acc kv.1 = none)
    (hnd : (items.map Prod.fst).Nodup) :
    items.foldl (fun a kv => alset a kv.1 kv.2) acc = acc ++ items := by
  induction items generalizing acc with
  | nil => simp
  | cons kv rest ih =>
    simp only [List.foldl_cons]
    rw [alset_of_absent acc kv.1 kv.2 (hdisj kv (List.mem_cons_self kv rest))]
    rw [List.map_cons, List.nodup_cons] at hnd
    rw [ih (acc ++ [(kv.1, kv.2)]) ?_ hnd.2]
    · simp
    · intro kv2 hkv2
      rw [alget_append, hdisj kv2 (List.mem_cons_of_mem kv hkv2)]
      rw [alget_singleton]
      have hne : (kv.1 == kv2.1) = false := by
        have : kv.1 ≠ kv2.1 := by
          intro hcontr
          exact hnd.1 (hcontr ▸ List.mem_map_of_mem Prod.fst hkv2)
        simp [this]
      simp [hne]

/-! ### Weight-normalization lemmas -/

theorem sumValues_map_scale (d : List (String × ℚ)) (t : ℚ) :
    sumValues (d.map (fun kv => (kv.1, kv.2 / t * 100))) =
      sumValues d / t * 100 := by
  induction d with
  | nil => simp [sumValues]
  | cons hd tl ih =>
    simp only [sumValues, List.map_cons, List.sum_cons] at *
    rw [ih]
    ring

theorem sumValues_DEFAULT_WEIGHTS :
    sumValues StackComparator.DEFAULT_WEIGHTS = 100 := by
  norm_num [sumValues, StackComparator.DEFAULT_WEIGHTS]

/-! ### Claim C2 — default rendering-context heuristic -/

/-- C2 (counterexample): with no desktop-marking environment variable and a
non-interactive stdout, the default heuristic yields the desktop (long-form)
context, not the CLI (fixed-width) one that the claim requires for
non-interactive output. -/
theorem C2_counterexample :
    ReportGenerator.output_context none none false = "desktop" ∧
      ("desktop" : String) ≠ "cli" :=
  ⟨rfl, by decide⟩

/-- C2 (amended): when `ReportGenerator` is constructed without an explicit
output context and no desktop-marking environment variable is set, the
heuristic selects the CLI rendering exactly when standard output IS
interactive, and the desktop (long-form) rendering otherwise. -/
theorem C2_default_context_interactive :
    ∀ stdout_isatty : Bool,
      ReportGenerator.output_context none none stdout_isatty =
        (if stdout_isatty then "cli" else "desktop") := by
  intro t
  cases t <;> rfl

/-! ### Claim C6 — weight normalization -/

/-- C6: for every caller-supplied weight-override mapping the normalized
weights sum to exactly 100; a zero merged-weight sum reverts to the
documented defaults; and an empty override yields the defaults exactly. -/
theorem C6_weight_normalization :
    (∀ custom : List (String × ℚ),
        sumValues (StackComparator.normalize_weights custom) = 100) ∧
    (∀ custom : List (String × ℚ),
        sumValues (dictUpdate StackComparator.DEFAULT_WEIGHTS custom) = 0 →
          StackComparator.normalize_weights custom =
            StackComparator.DEFAULT_WEIGHTS) ∧
    StackComparator.normalize_weights [] =
      StackComparator.DEFAULT_WEIGHTS := by
  refine ⟨?_, ?_, ?_⟩
  · intro custom
    simp only [StackComparator.normalize_weights]
    by_cases ht : sumValues (dictUpdate StackComparator.DEFAULT_WEIGHTS custom) = 0
    · rw [if_pos ht]
      exact sumValues_DEFAULT_WEIGHTS
    · rw [if_neg ht, sumValues_map_scale, div_self ht, one_mul]
  · intro custom h
    simp only [StackComparator.normalize_weights]
    rw [if_pos h]
  · simp +decide only [StackComparator.normalize_weights, dictUpdate,
      sumValues, StackComparator.DEFAULT_WEIGHTS, List.foldl, List.map,
      List.sum_cons, List.sum_nil]
    norm_num

/-- C6 (witness): a concrete zero-sum override (the performance weight set
to -85, cancelling the other defaults) reverts to the defaults, and a
concrete non-trivial override still normalizes to a sum of 100. -/
theorem C6_weight_normalization_witness :
    StackComparator.normalize_weights [("performance", -85)] =
      StackComparator.DEFAULT_WEIGHTS ∧
    sumValues (StackComparator.normalize_weights [("performance", 300)]) =
      100 :=
  ⟨C6_weight_normalization.2.1 _ (by
      simp +decide only [dictUpdate, alset, alget, sumValues,
        StackComparator.DEFAULT_WEIGHTS, List.find?, List.foldl, List.map,
        List.sum_cons, List.sum_nil, if_true, if_false]
      norm_num),
    C6_weight_normalization.1 _⟩

/-! ### Claim C7 — operational cost series -/

/-- C7: every yearly operational cost series has length exactly equal to the
requested timeline; the hosting entry at 0-based index `k` (year `k + 1`)
equals `monthly_hosting * 12 * (1 + growth_rate) ^ k` exactly; and the
documented example (monthly 1000, growth 0.20, 3 years) yields the series
[12000, 14400, 17280]. -/
theorem C7_operational_series :
    (∀ p : TCOCalculator.TCOParams,
      (TCOCalculator.calculate_operational_costs p).licensing.length =
          TCOCalculator.timelineYears p ∧
      (TCOCalculator.calculate_operational_costs p).hosting.length =
          TCOCalculator.timelineYears p ∧
      (TCOCalculator.calculate_operational_costs p).support.length =
          TCOCalculator.timelineYears p ∧
      (TCOCalculator.calculate_operational_costs p).maintenance.length =
          TCOCalculator.timelineYears p ∧
      (TCOCalculator.calculate_operational_costs p).total_yearly.length =
          TCOCalculator.timelineYears p) ∧
    (∀ (p : TCOCalculator.TCOParams) (k : ℕ),
      k < TCOCalculator.timelineYears p →
      (TCOCalculator.calculate_operational_costs p).hosting.get? k =
        some (p.monthly_hosting.getD 1000 * 12 *
          (1 + p.annual_growth_rate.getD 0.20) ^ k)) ∧
    (TCOCalculator.calculate_operational_costs
        { monthly_hosting := some 1000, annual_growth_rate := some 0.20,
          timeline_years := some 3 }).hosting = [12000, 14400, 17280] := by
  refine ⟨?_, ?_, ?_⟩
  · intro p
    simp [TCOCalculator.calculate_operational_costs]
  · intro p k hk
    simp only [TCOCalculator.calculate_operational_costs, List.get?_map,
      List.get?_range hk, Option.map_some]
    simp [TCOCalculator.calculate_hosting_cost]
  · simp only [TCOCalculator.calculate_operational_costs,
      TCOCalculator.calculate_hosting_cost, TCOCalculator.timelineYears]
    norm_num [List.range_succ]

/-- C7 (witness): the length and entry facts evaluated at the documented
example (3 years, monthly hosting 1000, growth 0.20, year 2). -/
theorem C7_operational_series_witness :
    (TCOCalculator.calculate_operational_costs
        { monthly_hosting := some 1000, annual_growth_rate := some 0.20,
          timeline_years := some 3 }).hosting.get? 1 = some 14400 := by
  have h := C7_operational_series.2.1
    { monthly_hosting := some 1000, annual_growth_rate := some 0.20,
      timeline_years := some 3 } 1 (by norm_num [TCOCalculator.timelineYears])
  rw [h]
  norm_num

/-! ### Claim C8 — migration approach thresholds -/

/-- C8: the recommended migration approach is direct exactly when the
overall complexity is at most 3, phased exactly when it is above 3 and at
most 6, and the strangler pattern exactly when it is above 6; each approach
carries its fixed ordered phase list and timeline multiplier
(1.0, 1.3, 1.5). -/
theorem C8_migration_approach :
    ∀ s : ℚ,
      ((MigrationAnalyzer.recommend_migration_approach s).approach =
          "direct_migration" ↔ s ≤ 3) ∧
      ((MigrationAnalyzer.recommend_migration_approach s).approach =
          "phased_migration" ↔ (3 < s ∧ s ≤ 6)) ∧
      ((MigrationAnalyzer.recommend_migration_approach s).approach =
          "strangler_pattern" ↔ 6 < s) ∧
      (MigrationAnalyzer.recommend_migration_approach s).timeline_multiplier
          = (if s ≤ 3 then 1.0 else if s ≤ 6 then 1.3 else 1.5) ∧
      (MigrationAnalyzer.recommend_migration_approach s).phases =
        (if s ≤ 3 then MigrationAnalyzer.direct_migration_phases
         else if s ≤ 6 then MigrationAnalyzer.phased_migration_phases
         else MigrationAnalyzer.strangler_pattern_phases) := by
  intro s
  unfold MigrationAnalyzer.recommend_migration_approach
  split_ifs with h1 h2 <;>
    refine ⟨?_, ?_, ?_, ?_, ?_⟩ <;>
      simp +decide only [MigrationAnalyzer.generate_approach_phases, alget,
        List.find?, if_true, if_false, Option.getD_some] <;>
      simp_all <;> linarith

/-! ### Claim C1 — parse robustness -/

/-- C1 (code bug): the input string `null` is valid JSON, so `parse` takes
the JSON branch, but `json.loads` returns `None` and
`_normalize_structure(None)` calls `None.copy()`, raising `AttributeError`
out of `parse` instead of returning an error-tagged dict (the
`except json.JSONDecodeError` clause does not catch it).  The same happens
for every valid-JSON input whose top-level value is not an object. -/
theorem C1_parse_null_raises :
    FormatDetector.parse "null" = Except.error "AttributeError" := by
  rfl

/-! ### Claim C3 — division guards -/

theorem isOk_iff_exists {α : Type} (x : Except String α) :
    x.isOk = true ↔ ∃ r, x = Except.ok r := by
  cases x <;> simp [Except.isOk, Except.toBool]

theorem pydiv_isOk (a b : ℚ) : (pydiv a b).isOk = true ↔ b ≠ 0 := by
  unfold pydiv
  split_ifs with h <;> simp [Except.isOk, Except.toBool, h]

theorem pydiv_of_ne (a b : ℚ) (h : b ≠ 0) :
    pydiv a b = Except.ok (a / b) := by
  simp [pydiv, h]

theorem productivity_isOk (p : TCOCalculator.TCOParams) :
    (TCOCalculator.calculate_productivity_impact p).isOk = true ↔
      p.avg_feature_time_days.getD 30 ≠ 0 := by
  by_cases h : p.avg_feature_time_days.getD 30 = 0
  · simp [TCOCalculator.calculate_productivity_impact, pydiv, h, Bind.bind,
      Except.bind, Except.isOk, Except.toBool]
  · have hmax : max (1 : ℚ)
        (p.avg_feature_time_days.getD 30 -
          p.time_to_market_reduction_days.getD 0) ≠ 0 :=
      ne_of_gt (lt_of_lt_of_le one_pos (le_max_left _ _))
    simp [TCOCalculator.calculate_productivity_impact,
      pydiv_of_ne _ _ h, pydiv_of_ne _ _ hmax, Bind.bind, Except.bind,
      Except.isOk, Except.toBool, h]

theorem total_tco_isOk (p : TCOCalculator.TCOParams) :
    (TCOCalculator.calculate_total_tco p).isOk = true ↔
      (p.avg_feature_time_days.getD 30 ≠ 0 ∧
        TCOCalculator.timelineYears p ≠ 0) := by
  by_cases h : p.avg_feature_time_days.getD 30 = 0
  · have hprod : ¬ (TCOCalculator.calculate_productivity_impact p).isOk
        = true := by
      rw [productivity_isOk]
      simp [h]
    rw [isOk_iff_exists] at hprod
    push_neg at hprod
    cases hp : TCOCalculator.calculate_productivity_impact p with
    | ok r => exact absurd hp (hprod r)
    | error e =>
      simp [TCOCalculator.calculate_total_tco, hp, Bind.bind, Except.bind,
        Except.isOk, Except.toBool, h]
  · obtain ⟨r, hr⟩ := (isOk_iff_exists _).mp ((productivity_isOk p).mpr h)
    by_cases hn : TCOCalculator.timelineYears p = 0
    · simp [TCOCalculator.calculate_total_tco, hr, Bind.bind, Except.bind,
        pydiv, hn, Except.isOk, Except.toBool, h]
    · have hcast : (TCOCalculator.timelineYears p : ℚ) ≠ 0 := by
        exact_mod_cast hn
      simp [TCOCalculator.calculate_total_tco, hr, Bind.bind, Except.bind,
        pydiv_of_ne _ _ hcast, Except.isOk, Except.toBool, h, hn]

theorem estimate_effort_isOk (m : MigrationAnalyzer.MigrationParams) :
    (MigrationAnalyzer.estimate_effort m).isOk = true ↔
      m.team_size.getD 3 * m.hours_per_week.getD 30 ≠ 0 := by
  by_cases h : m.team_size.getD 3 * m.hours_per_week.getD 30 = 0
  · simp [MigrationAnalyzer.estimate_effort, pydiv, h, Bind.bind,
      Except.bind, Except.isOk, Except.toBool]
  · simp [MigrationAnalyzer.estimate_effort, pydiv_of_ne _ _ h, Bind.bind,
      Except.bind, Except.isOk, Except.toBool, h]

theorem cost_per_user_zero_users (p : TCOCalculator.TCOParams)
    (h : p.initial_users = some 0) :
    ∀ x ∈ (TCOCalculator.calculate_scaling_costs p).cost_per_user, x = 0 := by
  intro x hx
  simp only [TCOCalculator.calculate_scaling_costs, h, Option.getD_some,
    List.mem_map] at hx
  obtain ⟨yu, hyu, hfx⟩ := hx
  have hz := List.of_mem_zip hyu
  have h2 : yu.2 = 0 := by
    obtain ⟨_, h2m⟩ := hz
    simp only [List.mem_map] at h2m
    obtain ⟨k, _, hk⟩ := h2m
    rw [← hk]
    norm_num [pyTrunc]
  rw [← hfx, h2]
  norm_num

/-- C3 (counterexample): with `timeline_years = 0` (all other parameters at
their defaults) the per-year average `total_cost / timeline_years` in
`calculate_total_tco` has no zero-check and raises `ZeroDivisionError`,
contradicting the claim that every ratio is guarded. -/
theorem C3_counterexample :
    TCOCalculator.calculate_total_tco { timeline_years := some 0 } =
      Except.error "ZeroDivisionError" := by
  obtain ⟨r, hr⟩ := (isOk_iff_exists _).mp
    ((productivity_isOk { timeline_years := some 0 }).mpr (by norm_num))
  simp [TCOCalculator.calculate_total_tco, hr, Bind.bind, Except.bind,
    pydiv, TCOCalculator.timelineYears]

/-- C3 (amended): the cost-per-user ratio is guarded (zero projected users
substitute 0), but three ratios carry no zero-check:
`calculate_productivity_impact` raises exactly when
`avg_feature_time_days = 0`, `calculate_total_tco` additionally raises when
`timeline_years = 0`, and `MigrationAnalyzer.estimate_effort` raises exactly
when `team_size * hours_per_week = 0`. -/
theorem C3_division_guards :
    (∀ p : TCOCalculator.TCOParams,
      (TCOCalculator.calculate_productivity_impact p).isOk = true ↔
        p.avg_feature_time_days.getD 30 ≠ 0) ∧
    (∀ p : TCOCalculator.TCOParams,
      (TCOCalculator.calculate_total_tco p).isOk = true ↔
        (p.avg_feature_time_days.getD 30 ≠ 0 ∧
          TCOCalculator.timelineYears p ≠ 0)) ∧
    (∀ m : MigrationAnalyzer.MigrationParams,
      (MigrationAnalyzer.estimate_effort m).isOk = true ↔
        m.team_size.getD 3 * m.hours_per_week.getD 30 ≠ 0) ∧
    (∀ p : TCOCalculator.TCOParams, p.initial_users = some 0 →
      ∀ x ∈ (TCOCalculator.calculate_scaling_costs p).cost_per_user,
        x = 0) :=
  ⟨productivity_isOk, total_tco_isOk, estimate_effort_isOk,
    cost_per_user_zero_users⟩

/-- C3 (witness): the guard characterization evaluated at concrete inputs —
the all-defaults TCO computation succeeds, a zero team size makes
`estimate_effort` fail, and a concrete zero-user scaling entry is the
fallback 0. -/
theorem C3_division_guards_witness :
    (TCOCalculator.calculate_total_tco { }).isOk = true ∧
    (MigrationAnalyzer.estimate_effort { team_size := some 0 }).isOk
        = false ∧
    (0 : ℚ) = 0 := by
  refine ⟨?_, ?_, ?_⟩
  · exact (C3_division_guards.2.1 { }).mpr
      (by norm_num [TCOCalculator.timelineYears])
  · have h := (C3_division_guards.2.2.1 { team_size := some 0 })
    rw [Bool.eq_false_iff]
    intro hcontr
    have := h.mp hcontr
    norm_num at this
  · exact C3_division_guards.2.2.2
      { initial_users := some 0, timeline_years := some 1 } rfl 0
      (by norm_num [TCOCalculator.calculate_scaling_costs,
        TCOCalculator.calculate_operational_costs,
        TCOCalculator.timelineYears, pyTrunc, List.range_succ, List.zip])

/-! ### Claim C4 — viability risk/strength thresholds -/

/-- C4 (counterexample): a corporate-backing score of 45 is below the
claimed risk threshold of 50, yet the assessment lists no corporate-backing
risk (the code uses 40 for that component): the result is only the
no-significant-risks placeholder. -/
theorem C4_counterexample :
    EcosystemAnalyzer.identify_viability_risks
        { github_health := 60, npm_health := 60, community_health := 60,
          corporate_backing := 45, maintenance_health := 60 } true =
      [EcosystemAnalyzer.no_risk] ∧
    (45 : ℚ) < 50 ∧
    EcosystemAnalyzer.corporate_risk ≠ EcosystemAnalyzer.no_risk := by
  refine ⟨rfl, by norm_num, by decide⟩

set_option maxHeartbeats 2000000 in
theorem risks_characterization (h : EcosystemAnalyzer.HealthComponents)
    (npm : Bool) :
    (EcosystemAnalyzer.maintenance_risk ∈
        EcosystemAnalyzer.identify_viability_risks h npm ↔
      h.maintenance_health < 50) ∧
    (EcosystemAnalyzer.github_risk ∈
        EcosystemAnalyzer.identify_viability_risks h npm ↔
      h.github_health < 50) ∧
    (EcosystemAnalyzer.corporate_risk ∈
        EcosystemAnalyzer.identify_viability_risks h npm ↔
      h.corporate_backing < 40) ∧
    (EcosystemAnalyzer.npm_risk ∈
        EcosystemAnalyzer.identify_viability_risks h npm ↔
      (h.npm_health < 50 ∧ npm = true)) ∧
    (EcosystemAnalyzer.community_risk ∈
        EcosystemAnalyzer.identify_viability_risks h npm ↔
      h.community_health < 50) ∧
    (EcosystemAnalyzer.identify_viability_risks h npm).count
        EcosystemAnalyzer.maintenance_risk ≤ 1 ∧
    (EcosystemAnalyzer.identify_viability_risks h npm).count
        EcosystemAnalyzer.github_risk ≤ 1 ∧
    (EcosystemAnalyzer.identify_viability_risks h npm).count
        EcosystemAnalyzer.corporate_risk ≤ 1 ∧
    (EcosystemAnalyzer.identify_viability_risks h npm).count
        EcosystemAnalyzer.npm_risk ≤ 1 ∧
    (EcosystemAnalyzer.identify_viability_risks h npm).count
        EcosystemAnalyzer.community_risk ≤ 1 := by
  unfold EcosystemAnalyzer.identify_viability_risks
  cases npm <;>
  split_ifs <;>
  simp_all [EcosystemAnalyzer.maintenance_risk,
    EcosystemAnalyzer.github_risk, EcosystemAnalyzer.corporate_risk,
    EcosystemAnalyzer.npm_risk, EcosystemAnalyzer.community_risk,
    EcosystemAnalyzer.no_risk, List.count_append, List.count_cons,
    List.count_singleton, List.count_nil, List.mem_append]

set_option maxHeartbeats 2000000 in
theorem strengths_characterization (h : EcosystemAnalyzer.HealthComponents)
    (npm : Bool) :
    (EcosystemAnalyzer.maintenance_strength ∈
        EcosystemAnalyzer.identify_viability_strengths h npm ↔
      70 ≤ h.maintenance_health) ∧
    (EcosystemAnalyzer.github_strength ∈
        EcosystemAnalyzer.identify_viability_strengths h npm ↔
      70 ≤ h.github_health) ∧
    (EcosystemAnalyzer.corporate_strength ∈
        EcosystemAnalyzer.identify_viability_strengths h npm ↔
      70 ≤ h.corporate_backing) ∧
    (EcosystemAnalyzer.npm_strength ∈
        EcosystemAnalyzer.identify_viability_strengths h npm ↔
      (70 ≤ h.npm_health ∧ npm = true)) ∧
    (EcosystemAnalyzer.community_strength ∈
        EcosystemAnalyzer.identify_viability_strengths h npm ↔
      70 ≤ h.community_health) ∧
    (EcosystemAnalyzer.identify_viability_strengths h npm).count
        EcosystemAnalyzer.maintenance_strength ≤ 1 ∧
    (EcosystemAnalyzer.identify_viability_strengths h npm).count
        EcosystemAnalyzer.github_strength ≤ 1 ∧
    (EcosystemAnalyzer.identify_viability_strengths h npm).count
        EcosystemAnalyzer.corporate_strength ≤ 1 ∧
    (EcosystemAnalyzer.identify_viability_strengths h npm).count
        EcosystemAnalyzer.npm_strength ≤ 1 ∧
    (EcosystemAnalyzer.identify_viability_strengths h npm).count
        EcosystemAnalyzer.community_strength ≤ 1 := by
  unfold EcosystemAnalyzer.identify_viability_strengths
  cases npm <;>
  split_ifs <;>
  simp_all [EcosystemAnalyzer.maintenance_strength,
    EcosystemAnalyzer.github_strength, EcosystemAnalyzer.corporate_strength,
    EcosystemAnalyzer.npm_strength, EcosystemAnalyzer.community_strength,
    EcosystemAnalyzer.no_strength, List.count_append, List.count_cons,
    List.count_singleton, List.count_nil, List.mem_append, ge_iff_le]

/-- C4 (amended): each component contributes at most one risk item and at
most one strength item; a strength is listed exactly when the component
score is at least 70 (npm gated on npm data); a risk is listed exactly when
the score is below 50 for the maintenance, GitHub, community and (data
permitting) npm components — but below 40, not 50, for corporate backing. -/
theorem C4_viability_thresholds :
    ∀ (h : EcosystemAnalyzer.HealthComponents) (npm : Bool),
      ((EcosystemAnalyzer.maintenance_risk ∈
          EcosystemAnalyzer.identify_viability_risks h npm ↔
        h.maintenance_health < 50) ∧
       (EcosystemAnalyzer.github_risk ∈
          EcosystemAnalyzer.identify_viability_risks h npm ↔
        h.github_health < 50) ∧
       (EcosystemAnalyzer.corporate_risk ∈
          EcosystemAnalyzer.identify_viability_risks h npm ↔
        h.corporate_backing < 40) ∧
       (EcosystemAnalyzer.npm_risk ∈
          EcosystemAnalyzer.identify_viability_risks h npm ↔
        (h.npm_health < 50 ∧ npm = true)) ∧
       (EcosystemAnalyzer.community_risk ∈
          EcosystemAnalyzer.identify_viability_risks h npm ↔
        h.community_health < 50) ∧
       (EcosystemAnalyzer.identify_viability_risks h npm).count
          EcosystemAnalyzer.maintenance_risk ≤ 1 ∧
       (EcosystemAnalyzer.identify_viability_risks h npm).count
          EcosystemAnalyzer.github_risk ≤ 1 ∧
       (EcosystemAnalyzer.identify_viability_risks h npm).count
          EcosystemAnalyzer.corporate_risk ≤ 1 ∧
       (EcosystemAnalyzer.identify_viability_risks h npm).count
          EcosystemAnalyzer.npm_risk ≤ 1 ∧
       (EcosystemAnalyzer.identify_viability_risks h npm).count
          EcosystemAnalyzer.community_risk ≤ 1) ∧
      ((EcosystemAnalyzer.maintenance_strength ∈
          EcosystemAnalyzer.identify_viability_strengths h npm ↔
        70 ≤ h.maintenance_health) ∧
       (EcosystemAnalyzer.github_strength ∈
          EcosystemAnalyzer.identify_viability_strengths h npm ↔
        70 ≤ h.github_health) ∧
       (EcosystemAnalyzer.corporate_strength ∈
          EcosystemAnalyzer.identify_viability_strengths h npm ↔
        70 ≤ h.corporate_backing) ∧
       (EcosystemAnalyzer.npm_strength ∈
          EcosystemAnalyzer.identify_viability_strengths h npm ↔
        (70 ≤ h.npm_health ∧ npm = true)) ∧
       (EcosystemAnalyzer.community_strength ∈
          EcosystemAnalyzer.identify_viability_strengths h npm ↔
        70 ≤ h.community_health) ∧
       (EcosystemAnalyzer.identify_viability_strengths h npm).count
          EcosystemAnalyzer.maintenance_strength ≤ 1 ∧
       (EcosystemAnalyzer.identify_viability_strengths h npm).count
          EcosystemAnalyzer.github_strength ≤ 1 ∧
       (EcosystemAnalyzer.identify_viability_strengths h npm).count
          EcosystemAnalyzer.corporate_strength ≤ 1 ∧
       (EcosystemAnalyzer.identify_viability_strengths h npm).count
          EcosystemAnalyzer.npm_strength ≤ 1 ∧
       (EcosystemAnalyzer.identify_viability_strengths h npm).count
          EcosystemAnalyzer.community_strength ≤ 1) :=
  fun h npm => ⟨risks_characterization h npm, strengths_characterization h npm⟩

/-! ### Claim C9 — unknown compliance standards -/

/-- C9: every requested standard gets exactly one results entry — the fixed
`readiness = Unknown, score = 0, status = Unknown standard` dict when the
standard is not one of the four recognized ones, and the full readiness
assessment otherwise; unknown names neither raise nor suppress the
assessment of the recognized standards in the same request. -/
theorem C9_unknown_standard :
    ∀ (security_features : List (String × Bool)) (standards : List String)
      (s : String), s ∈ standards →
      alget (SecurityAssessor.assess_compliance security_features standards)
          s =
        some (if (alget SecurityAssessor.COMPLIANCE_STANDARDS s).isNone then
          SecurityAssessor.ComplianceEntry.unknown "Unknown" 0
            "Unknown standard"
        else
          SecurityAssessor.assess_standard_readiness security_features s) := by
  intro security_features standards s hmem
  have hfold : SecurityAssessor.assess_compliance security_features
      standards =
      standards.foldl (fun acc std => alset acc std
        (if (alget SecurityAssessor.COMPLIANCE_STANDARDS std).isNone then
          SecurityAssessor.ComplianceEntry.unknown "Unknown" 0
            "Unknown standard"
        else
          SecurityAssessor.assess_standard_readiness security_features std))
        [] := by
    unfold SecurityAssessor.assess_compliance
    congr 1
    funext acc std
    split_ifs <;> rfl
  rw [hfold, alget_foldl_set]
  simp [hmem]

/-- C9 (witness): a request mixing the unrecognized `ISO27001` with the
recognized `GDPR` yields the fixed unknown entry for the former and the
full assessment for the latter. -/
theorem C9_unknown_standard_witness :
    alget (SecurityAssessor.assess_compliance [("data_privacy", true)]
        ["GDPR", "ISO27001"]) "ISO27001" =
      some (SecurityAssessor.ComplianceEntry.unknown "Unknown" 0
        "Unknown standard") ∧
    alget (SecurityAssessor.assess_compliance [("data_privacy", true)]
        ["GDPR", "ISO27001"]) "GDPR" =
      some (SecurityAssessor.assess_standard_readiness
        [("data_privacy", true)] "GDPR") := by
  constructor
  · rw [C9_unknown_standard [("data_privacy", true)] ["GDPR", "ISO27001"]
      "ISO27001" (by simp)]
    simp [SecurityAssessor.COMPLIANCE_STANDARDS, alget, List.find?]
  · rw [C9_unknown_standard [("data_privacy", true)] ["GDPR", "ISO27001"]
      "GDPR" (by simp)]
    simp [SecurityAssessor.COMPLIANCE_STANDARDS, alget, List.find?]

/-! ### Stable-sort lemmas for the recommendation -/

namespace StackComparator

theorem head_insertionSort_firstMax (l : List (String × Scorecard)) :
    (List.insertionSort byTotalDesc l).head? = firstMaxCard l := by
  induction l with
  | nil => rfl
  | cons x xs ih =>
    rw [List.insertionSort]
    cases hs : List.insertionSort byTotalDesc xs with
    | nil =>
      rw [hs] at ih
      simp only [List.orderedInsert, List.head?, firstMaxCard, ← ih]
    | cons m t =>
      rw [hs] at ih
      simp only [List.head?] at ih
      simp only [List.orderedInsert, firstMaxCard, ← ih]
      by_cases hr : byTotalDesc x m
      · rw [if_pos hr,
          if_pos (show m.2.weighted_total ≤ x.2.weighted_total from hr)]
        rfl
      · rw [if_neg hr,
          if_neg (show ¬ m.2.weighted_total ≤ x.2.weighted_total from hr)]
        rfl

theorem firstMaxCard_mem :
    ∀ (l : List (String × Scorecard)) (m : String × Scorecard),
      firstMaxCard l = some m → m ∈ l := by
  intro l
  induction l with
  | nil => intro m h; exact absurd h (by simp [firstMaxCard])
  | cons x xs ih =>
    intro m h
    rw [firstMaxCard] at h
    cases hm : firstMaxCard xs with
    | none =>
      simp only [hm] at h
      simp at h
      simp [h]
    | some m2 =>
      simp only [hm] at h
      by_cases hr : m2.2.weighted_total ≤ x.2.weighted_total
      · rw [if_pos hr] at h
        simp at h
        simp [h]
      · rw [if_neg hr] at h
        simp at h
        exact List.mem_cons_of_mem x (h ▸ ih m2 hm)

theorem firstMaxCard_at :
    ∀ (l : List (String × Scorecard)) (i : ℕ) (hi : i < l.length),
      (∀ y ∈ l, y.2.weighted_total ≤ (l.get ⟨i, hi⟩).2.weighted_total) →
      (∀ j (hj : j < i),
        (l.get ⟨j, lt_trans hj hi⟩).2.weighted_total <
          (l.get ⟨i, hi⟩).2.weighted_total) →
      firstMaxCard l = some (l.get ⟨i, hi⟩) := by
  intro l
  induction l with
  | nil => intro i hi; exact absurd hi (by simp)
  | cons x xs ih =>
    intro i hi hmax hstrict
    cases i with
    | zero =>
      simp only [List.get] at hmax ⊢
      rw [firstMaxCard]
      cases hm : firstMaxCard xs with
      | none => simp only [hm]
      | some m =>
        have hmem := firstMaxCard_mem xs m hm
        simp only [hm]
        rw [if_pos (hmax m (List.mem_cons_of_mem x hmem))]
    | succ k =>
      have hk : k < xs.length := by
        simpa [Nat.succ_lt_succ_iff] using hi
      have hx_lt : x.2.weighted_total <
          ((x :: xs).get ⟨k + 1, hi⟩).2.weighted_total :=
        hstrict 0 (Nat.succ_pos k)
      have hrec : firstMaxCard xs = some (xs.get ⟨k, hk⟩) := by
        apply ih k hk
        · intro y hy
          have := hmax y (List.mem_cons_of_mem x hy)
          simpa using this
        · intro j hj
          have := hstrict (j + 1) (Nat.succ_lt_succ hj)
          simpa using this
      rw [firstMaxCard]
      simp only [hrec]
      have hget : ((x :: xs).get ⟨k + 1, hi⟩) = xs.get ⟨k, hk⟩ := by simp
      rw [hget] at hx_lt ⊢
      rw [if_neg (not_le.mpr hx_lt)]

theorem confidence_from_gap_le_100 (g : ℚ) (hg : 0 ≤ g) :
    confidence_from_gap g ≤ 100 := by
  unfold confidence_from_gap
  split_ifs with h1 h2
  · linarith
  · linarith
  · have := min_le_right (g - 15) (30 : ℚ)
    linarith

theorem confidence_from_gap_mono (g1 g2 : ℚ) (hg : 0 ≤ g1) (h12 : g1 ≤ g2) :
    confidence_from_gap g1 ≤ confidence_from_gap g2 := by
  unfold confidence_from_gap
  split_ifs with a1 b1 b2 a2 b3 b4 b5 b6 <;> try linarith
  · have := le_min (by linarith : (0 : ℚ) ≤ g2 - 15)
      (by norm_num : (0 : ℚ) ≤ (30 : ℚ))
    linarith
  · have := le_min (by linarith : (0 : ℚ) ≤ g2 - 15)
      (by norm_num : (0 : ℚ) ≤ (30 : ℚ))
    linarith
  · have h1 := min_le_min (by linarith : g1 - 15 ≤ g2 - 15)
      (le_refl (30 : ℚ))
    linarith

theorem generate_recommendation_sorted (l : List (String × Scorecard))
    (a b : String × Scorecard) (t : List (String × Scorecard))
    (h : List.insertionSort byTotalDesc l = a :: b :: t) :
    generate_recommendation l =
      (a.1, confidence_from_gap
        (a.2.weighted_total - b.2.weighted_total)) ∧
    b.2.weighted_total ≤ a.2.weighted_total := by
  have hsorted := List.sorted_insertionSort byTotalDesc l
  rw [h] at hsorted
  have hab : byTotalDesc a b :=
    List.rel_of_sorted_cons hsorted b (List.mem_cons_self b t)
  have hgap : (0 : ℚ) ≤ a.2.weighted_total - b.2.weighted_total := by
    have : b.2.weighted_total ≤ a.2.weighted_total := hab
    linarith
  refine ⟨?_, hab⟩
  unfold generate_recommendation
  rw [h]
  simp only []
  rw [min_eq_right (confidence_from_gap_le_100 _ hgap)]

end StackComparator

/-! ### Claim C5 — confidence from score gap -/

/-- C5: the recommendation confidence is the documented non-decreasing
function of the gap between the two highest weighted totals — `40 + 2g` for
`g < 5`, `50 + 2(g - 5)` for `5 ≤ g < 15`, `70 + min(g - 15, 30)` for
`g ≥ 15` — a single candidate yields exactly 100, a gap of 8 yields 56, and
weighted totals 80 and 72 yield confidence 56. -/
theorem C5_confidence :
    (∀ g1 g2 : ℚ, 0 ≤ g1 → g1 ≤ g2 →
      StackComparator.confidence_from_gap g1 ≤
        StackComparator.confidence_from_gap g2) ∧
    (∀ (l : List (String × StackComparator.Scorecard))
      (a b : String × StackComparator.Scorecard)
      (t : List (String × StackComparator.Scorecard)),
      List.insertionSort StackComparator.byTotalDesc l = a :: b :: t →
      StackComparator.generate_recommendation l =
        (a.1, StackComparator.confidence_from_gap
          (a.2.weighted_total - b.2.weighted_total)) ∧
      b.2.weighted_total ≤ a.2.weighted_total) ∧
    (∀ p : String × StackComparator.Scorecard,
      StackComparator.generate_recommendation [p] = (p.1, 100)) ∧
    StackComparator.confidence_from_gap 8 = 56 ∧
    (∀ (n1 n2 : String) (c1 c2 : StackComparator.Scorecard),
      c1.weighted_total = 80 → c2.weighted_total = 72 →
      (StackComparator.generate_recommendation [(n1, c1), (n2, c2)]).2
        = 56) := by
  refine ⟨StackComparator.confidence_from_gap_mono,
    StackComparator.generate_recommendation_sorted, ?_, ?_, ?_⟩
  · intro p
    simp [StackComparator.generate_recommendation, List.insertionSort,
      List.orderedInsert]
  · norm_num [StackComparator.confidence_from_gap]
  · intro n1 n2 c1 c2 h1 h2
    have hsort : List.insertionSort StackComparator.byTotalDesc
        [(n1, c1), (n2, c2)] = (n1, c1) :: (n2, c2) :: [] := by
      have hr : StackComparator.byTotalDesc (n1, c1) (n2, c2) := by
        show c2.weighted_total ≤ c1.weighted_total
        rw [h1, h2]
        norm_num
      simp [List.insertionSort, List.orderedInsert, hr]
    have := (StackComparator.generate_recommendation_sorted _ _ _ _ hsort).1
    rw [this]
    simp only [h1, h2]
    norm_num [StackComparator.confidence_from_gap]

/-- C5 (witness): the confidence facts evaluated at concrete inputs — two
scorecards with totals 80 and 72 give confidence 56, and the
confidence function is monotone between the concrete gaps 1 and 2. -/
theorem C5_confidence_witness :
    (StackComparator.generate_recommendation
      [("A", ⟨[], 80, [], []⟩), ("B", ⟨[], 72, [], []⟩)]).2 = 56 ∧
    StackComparator.confidence_from_gap 1 ≤
      StackComparator.confidence_from_gap 2 :=
  ⟨C5_confidence.2.2.2.2 "A" "B" ⟨[], 80, [], []⟩ ⟨[], 72, [], []⟩ rfl rfl,
    C5_confidence.1 1 2 (by norm_num) (by norm_num)⟩

/-! ### Claim C10 — deterministic tie-breaking -/

theorem buildTechScores_eq_map (use_case : String)
    (weights : List (String × ℚ))
    (techs : List StackComparator.TechInput)
    (hnd : (techs.map StackComparator.TechInput.name).Nodup) :
    StackComparator.buildTechScores use_case weights techs =
      techs.map (fun t =>
        (t.name, StackComparator.mkScorecard use_case weights t)) := by
  have hdisj : ∀ kv ∈ techs.map (fun t =>
      (t.name, StackComparator.mkScorecard use_case weights t)),
      alget ([] : List (String × StackComparator.Scorecard)) kv.1 = none :=
    fun kv _ => rfl
  have hnd2 : ((techs.map (fun t =>
      (t.name, StackComparator.mkScorecard use_case weights t))).map
        Prod.fst).Nodup := by
    rw [List.map_map]
    exact hnd
  have h := foldl_alset_append _ _ hdisj hnd2
  rw [List.foldl_map] at h
  unfold StackComparator.buildTechScores
  simpa using h

open StackComparator in
/-- C10: when two or more technologies (with distinct names) tie exactly for
the highest weighted total, `compare_technologies` recommends the tied
technology that appears earliest in the input list (index `i` below is the
earliest maximal index), with confidence exactly 40 — the gap-0 value —
so the outcome is deterministic in input order. -/
theorem C10_tie_break :
    ∀ (use_case : String) (weights : List (String × ℚ))
      (techs : List TechInput),
      (techs.map TechInput.name).Nodup →
      ∀ (i j : ℕ) (hi : i < techs.length) (hj : j < techs.length),
      (∀ t ∈ techs, wtotal use_case weights t ≤
        wtotal use_case weights (techs.get ⟨i, hi⟩)) →
      (∀ k (hk : k < i), wtotal use_case weights
        (techs.get ⟨k, lt_trans hk hi⟩) <
        wtotal use_case weights (techs.get ⟨i, hi⟩)) →
      i ≠ j →
      wtotal use_case weights (techs.get ⟨j, hj⟩) =
        wtotal use_case weights (techs.get ⟨i, hi⟩) →
      (compare_technologies use_case weights techs).recommendation =
        (techs.get ⟨i, hi⟩).name ∧
      (compare_technologies use_case weights techs).confidence = 40 := by
  intro uc w techs hnd i j hi hj hmax hstrict hij htie
  have hL := buildTechScores_eq_map uc w techs hnd
  have hmapf : ∀ (k : ℕ) (hk : k < techs.length),
      (techs.map (fun t => (t.name, mkScorecard uc w t))).get
          ⟨k, by simpa using hk⟩ =
        ((techs.get ⟨k, hk⟩).name, mkScorecard uc w (techs.get ⟨k, hk⟩)) := by
    intro k hk
    simp [List.get_map]
  have hkey : ∀ t : TechInput,
      (mkScorecard uc w t).weighted_total = wtotal uc w t := fun _ => rfl
  -- head of the stable sort = first input element attaining the max
  have hilen : i < (techs.map (fun t => (t.name, mkScorecard uc w t))).length := by
    simpa using hi
  have hfm : firstMaxCard (techs.map (fun t => (t.name, mkScorecard uc w t))) =
      some ((techs.get ⟨i, hi⟩).name, mkScorecard uc w (techs.get ⟨i, hi⟩)) := by
    have := firstMaxCard_at (techs.map (fun t => (t.name, mkScorecard uc w t)))
      i hilen ?hmax ?hstrict
    · rw [this, hmapf i hi]
    · intro y hy
      rw [hmapf i hi]
      obtain ⟨t, ht, rfl⟩ := List.mem_map.mp hy
      simpa [hkey] using hmax t ht
    · intro k hk
      rw [hmapf i hi, hmapf k (lt_trans hk hi)]
      simpa [hkey] using hstrict k hk
  -- the sorted list has at least two elements
  have hlen2 : 2 ≤ techs.length := by omega
  have hsortlen : (List.insertionSort byTotalDesc
      (techs.map (fun t => (t.name, mkScorecard uc w t)))).length =
        techs.length := by
    rw [List.length_insertionSort]
    simp
  cases hs : List.insertionSort byTotalDesc
      (techs.map (fun t => (t.name, mkScorecard uc w t))) with
  | nil =>
    rw [hs] at hsortlen
    simp at hsortlen
    omega
  | cons a rest =>
    cases rest with
    | nil =>
      rw [hs] at hsortlen
      simp at hsortlen
      omega
    | cons b t =>
      -- the head is the earliest maximal entry
      have hhead := head_insertionSort_firstMax
        (techs.map (fun t => (t.name, mkScorecard uc w t)))
      rw [hs, hfm] at hhead
      simp only [List.head?, Option.some.injEq] at hhead
      -- the runner-up entry also attains the maximal total
      have hjlen : j < (techs.map (fun t =>
          (t.name, mkScorecard uc w t))).length := by simpa using hj
      have hyL : (techs.map (fun t => (t.name, mkScorecard uc w t))).get
          ⟨j, hjlen⟩ ∈ techs.map (fun t => (t.name, mkScorecard uc w t)) :=
        List.get_mem _ _ _
      have hyval := hmapf j hj
      have hyne : ((techs.get ⟨j, hj⟩).name,
          mkScorecard uc w (techs.get ⟨j, hj⟩)) ≠ a := by
        rw [hhead]
        intro hcontr
        have hnames : (techs.get ⟨j, hj⟩).name =
            (techs.get ⟨i, hi⟩).name := congrArg Prod.fst hcontr
        have hnmap : ∀ (k : ℕ) (hk : k < techs.length),
            (techs.map TechInput.name).get ⟨k, by simpa using hk⟩ =
              (techs.get ⟨k, hk⟩).name := by
          intro k hk
          simp [List.get_map]
        have := (hnd.get_inj_iff (i := ⟨j, by simpa using hj⟩)
          (j := ⟨i, by simpa using hi⟩)).mp
          (by rw [hnmap j hj, hnmap i hi]; exact hnames)
        simp at this
        exact hij this.symm
      have hperm := List.perm_insertionSort byTotalDesc
        (techs.map (fun t => (t.name, mkScorecard uc w t)))
      have hymem : ((techs.get ⟨j, hj⟩).name,
          mkScorecard uc w (techs.get ⟨j, hj⟩)) ∈ a :: b :: t := by
        rw [← hs]
        rw [hperm.mem_iff]
        rw [← hyval]
        exact hyL
      have hy2 : ((techs.get ⟨j, hj⟩).name,
          mkScorecard uc w (techs.get ⟨j, hj⟩)) ∈ b :: t := by
        rcases List.mem_cons.mp hymem with hcontr | hok
        · exact absurd hcontr hyne
        · exact hok
      have hsorted := List.sorted_insertionSort byTotalDesc
        (techs.map (fun t => (t.name, mkScorecard uc w t)))
      rw [hs] at hsorted
      have htail : List.Sorted byTotalDesc (b :: t) := hsorted.of_cons
      have hy_le_b : wtotal uc w (techs.get ⟨j, hj⟩) ≤
          b.2.weighted_total := by
        rcases List.mem_cons.mp hy2 with heq | hmem2
        · rw [← heq]
          exact le_refl _
        · exact List.rel_of_sorted_cons htail _ hmem2
      have hb_mem_L : b ∈ techs.map (fun t => (t.name, mkScorecard uc w t)) := by
        rw [← hperm.mem_iff, hs]
        simp
      have hb_le_a : b.2.weighted_total ≤
          wtotal uc w (techs.get ⟨i, hi⟩) := by
        obtain ⟨tb, htb, rfl⟩ := List.mem_map.mp hb_mem_L
        simpa [hkey] using hmax tb htb
      have hba : b.2.weighted_total = a.2.weighted_total := by
        rw [hhead]
        show b.2.weighted_total = (mkScorecard uc w (techs.get ⟨i, hi⟩)).weighted_total
        rw [hkey]
        have h4 : wtotal uc w (techs.get ⟨i, hi⟩) ≤ b.2.weighted_total := by
          rw [← htie]
          exact hy_le_b
        exact le_antisymm hb_le_a h4
      have hgen := generate_recommendation_sorted _ a b t hs
      have hgap : a.2.weighted_total - b.2.weighted_total = 0 := by
        rw [hba]
        ring
      constructor
      · simp only [compare_technologies, hL, hgen.1]
        rw [hhead]
      · simp only [compare_technologies, hL, hgen.1, hgap]
        norm_num [confidence_from_gap]

/-- C10 (witness): two technologies with no score data (hence equal weighted
totals under empty weights) tie; the first one in input order is recommended
with confidence exactly 40. -/
theorem C10_tie_break_witness :
    (StackComparator.compare_technologies "" []
      [⟨"A", []⟩, ⟨"B", []⟩]).recommendation = "A" ∧
    (StackComparator.compare_technologies "" []
      [⟨"A", []⟩, ⟨"B", []⟩]).confidence = 40 := by
  have h := C10_tie_break "" [] [⟨"A", []⟩, ⟨"B", []⟩] (by simp) 0 1
    (by norm_num) (by norm_num)
    (by
      intro t ht
      rcases List.mem_cons.mp ht with rfl | ht2
      · exact le_refl _
      · rcases List.mem_cons.mp ht2 with rfl | ht3
        · exact le_of_eq rfl
        · exact absurd ht3 (List.not_mem_nil t))
    (by intro k hk; exact absurd hk (Nat.not_lt_zero k))
    (by norm_num)
    rfl
  exact h
